import Mathlib

/-!
# Browser glue of the DICOM viewer service: `app/static/js/general_fun.js`

A shallow embedding of the two feature groups of the file.

* Session guard (`decodeToken`, `isTokenExpired`, `calculateTokenLifetime`,
  `formatTime`, `showTokenExpiredModal`, `checkToken`, the click listener of
  `setupTokenCheckOnActions`, the wrapper of `enableFetchInterceptor`,
  `goBack`).
* Modal manager (`modalConfigs`, `modalStates`, `initModalControls`,
  `minimizeModal`, `maximizeModal`, `closeModal`, the drag handlers of
  `makeModalDraggable`).

Conventions of the embedding.

* A JavaScript call that can raise is a function into `Except JsError _`;
  `try`/`catch` is a match on that result.
* Browser built-ins that the file calls but does not define (`atob`,
  `decodeURIComponent`, `JSON.parse`, `Date.now`, the original `fetch`) are
  parameters.
* Numbers are whole numbers (`Int`); an `exp` member of a decoded payload, when
  present, is such a number. The code computes with IEEE doubles, which agree
  with this arithmetic on safe integers (`SafeInteger`: absolute value at most
  two to the power 53 minus one); a statement about all numbers carries that
  bound as a hypothesis.
* `console` output is not modelled.
-/

namespace GeneralFun

/-! ## JavaScript values and built-ins -/

/-- Exceptions raised by the calls of this file. -/
inductive JsError
  | typeError
  | invalidCharacter
  | uriError
  | parseError
  | networkError
  deriving DecidableEq, Repr

deriving instance DecidableEq for Except

/-- An object produced by `JSON.parse` (arrays included), seen through the only
member the guard reads: `exp` is `none` when the member is undefined. -/
structure Claims where
  exp : Option Int
  deriving DecidableEq, Repr

/-- Values `JSON.parse` can return. -/
inductive JsonValue
  | null
  | bool (b : Bool)
  | num (n : Int)
  | str (s : String)
  | claims (c : Claims)
  deriving DecidableEq, Repr

/-- JavaScript truthiness of a parsed value (`!v` is its negation). -/
def JsonValue.truthy : JsonValue → Bool
  | .null => false
  | .bool b => b
  | .num n => decide (n ≠ 0)
  | .str s => decide (s ≠ "")
  | .claims _ => true

/-- The property read `v.exp`: a `TypeError` on `null`, undefined on the other
primitives, the member on an object. -/
def JsonValue.getExp : JsonValue → Except JsError (Option Int)
  | .null => .error .typeError
  | .bool _ => .ok none
  | .num _ => .ok none
  | .str _ => .ok none
  | .claims c => .ok c.exp

/-- Truthiness of a possibly absent string (`null`, `undefined` and `""` are
falsy). -/
def strTruthy : Option String → Bool
  | none => false
  | some s => decide (s ≠ "")

/-- The browser built-ins used by the session guard. `atob` yields a binary
string, given by its character codes; `dateNow` is `Date.now()` in
milliseconds. -/
structure Builtins where
  atob : String → Except JsError (List (Fin 256))
  decodeURIComponent : String → Except JsError String
  jsonParse : String → Except JsError JsonValue
  dateNow : Int

/-- `Math.floor(Date.now() / 1000)`, exact for a safe integer `Date.now()`. -/
def currentTime (env : Builtins) : Int :=
  Int.fdiv env.dateNow 1000

/-- The largest whole number up to which every whole number is a JavaScript
number: `Number.MAX_SAFE_INTEGER`, two to the power 53 minus one. -/
def maxSafeInteger : Int :=
  9007199254740991

/-- A whole number on which the number arithmetic of the code is exact. -/
def SafeInteger (z : Int) : Prop :=
  -maxSafeInteger ≤ z ∧ z ≤ maxSafeInteger

instance (z : Int) : Decidable (SafeInteger z) :=
  inferInstanceAs (Decidable (-maxSafeInteger ≤ z ∧ z ≤ maxSafeInteger))

/-! ## Token decoding -/

/-- `s.split('.')` on the characters of `s`. -/
def splitOnDot : List Char → List (List Char)
  | [] => [[]]
  | c :: cs =>
    match splitOnDot cs with
    | [] => [[]]
    | seg :: rest => if c = '.' then [] :: seg :: rest else (c :: seg) :: rest

/-- The two global replacements on the middle segment: every minus sign becomes
a plus sign, then every underscore becomes a slash. -/
def base64UrlToBase64 (base64Url : List Char) : List Char :=
  (base64Url.map fun c => if c = '-' then '+' else c).map fun c => if c = '_' then '/' else c

/-- `('00' + code.toString(16)).slice(-2)`. -/
def hexByte (code : Nat) : List Char :=
  let s := ['0', '0'] ++ Nat.toDigits 16 code
  s.drop (s.length - 2)

/-- `bin.split('').map(c => '%' + hexByte(c.charCodeAt(0))).join('')`. -/
def percentEncode (bin : List (Fin 256)) : String :=
  String.mk (bin.flatMap fun b => '%' :: hexByte b.val)

/-- The body of the `try` block of `decodeToken`. -/
def decodeTokenBody (env : Builtins) (token : Option String) : Except JsError JsonValue :=
  match token with
  | none => .error .typeError
  | some t =>
    match (splitOnDot t.toList)[1]? with
    | none => .error .typeError
    | some base64Url =>
      match env.atob (String.mk (base64UrlToBase64 base64Url)) with
      | .error e => .error e
      | .ok bin =>
        match env.decodeURIComponent (percentEncode bin) with
        | .error e => .error e
        | .ok jsonPayload => env.jsonParse jsonPayload

/-- `decodeToken(token)`: the `catch` turns every exception of the body into
`null`. -/
def decodeToken (env : Builtins) (token : Option String) : Except JsError JsonValue :=
  match decodeTokenBody env token with
  | .ok v => .ok v
  | .error _ => .ok .null

/-! ## Expiry and lifetime -/

/-- `isTokenExpired(token)`. -/
def isTokenExpired (env : Builtins) (token : Option String) : Except JsError Bool :=
  match decodeToken env token with
  | .error e => .error e
  | .ok decodedToken =>
    if !decodedToken.truthy then .ok true
    else
      match decodedToken.getExp with
      | .error e => .error e
      | .ok none => .ok true
      | .ok (some exp) =>
        if exp = 0 then .ok true
        else .ok (decide (exp < currentTime env))

/-- `formatTime(seconds)`; `%` is the truncating remainder of JavaScript. Exact
for a safe integer number of seconds. -/
def formatTime (seconds : Int) : String :=
  let hours := Int.fdiv seconds 3600
  let minutes := Int.fdiv (Int.tmod seconds 3600) 60
  let secs := Int.tmod seconds 60
  toString hours ++ "ч " ++ toString minutes ++ "м " ++ toString secs ++ "с"

/-- `calculateTokenLifetime(decodedToken)`; `none` is the `null` result. Exact
when `exp`, the clock and their difference are safe integers. -/
def calculateTokenLifetime (env : Builtins) (decodedToken : JsonValue) :
    Except JsError (Option Int) :=
  match decodedToken.getExp with
  | .error e => .error e
  | .ok none => .ok none
  | .ok (some exp) =>
    if exp = 0 then .ok none
    else
      let remainingTime := exp - currentTime env
      if remainingTime ≤ 0 then .ok (some 0) else .ok (some remainingTime)

/-! ## Client state and remediation -/

/-- The second argument of a `fetch` call, seen through its `headers` member (a
plain object, as a list of name and value pairs). -/
structure RequestInit where
  headers : Option (List (String × String))
  deriving DecidableEq, Repr

/-- The arguments of a `fetch` call: the resource and the optional options. -/
structure FetchArgs where
  input : String
  init : Option RequestInit
  deriving DecidableEq, Repr

/-- A response of the network layer. -/
structure Response where
  status : Nat
  body : String
  deriving DecidableEq, Repr

/-- The client state the session guard reads and writes: the content and the
display of `document.body`, whether the login button of the current body has its
click listener, local storage, the names of `window.caches` (`none` when the
browser has no cache storage), the query parameters of `window.location.search`
and `window.location.href`. -/
structure Client where
  bodyHTML : String
  bodyDisplay : String
  loginRedirectWired : Bool
  localStorage : List (String × String)
  caches : Option (List String)
  search : List (String × String)
  href : String
  deriving DecidableEq, Repr

/-- Calls recorded for the statements about how often something happens: an
invocation of `showTokenExpiredModal`, a call of the original `fetch`. -/
inductive Effect
  | remediation
  | fetch (args : FetchArgs)
  deriving DecidableEq, Repr

/-- The client state together with the record of calls, oldest first. -/
structure World where
  client : Client
  trace : List Effect
  deriving DecidableEq, Repr

/-- The markup of the session-expired overlay (`modalHTML`), line by line. -/
def modalHTML : String :=
  String.intercalate "\n" [
    "",
    "    <div id=\"tokenExpiredModal\" class=\"modal\" ",
    "       style=\"height: auto; ",
    "       padding: 20px; ",
    "       display: flex; ",
    "       flex-direction: column;",
    "       position: fixed;",
    "       top: 50%;",
    "       left: 50%;",
    "       transform: translate(-50%, -50%);",
    "       z-index: 1000;\">",
    "    <div style=\"display: flex; flex-direction: column; align-items: center; gap: 15px; flex: 1; justify-content: center;\">",
    "",
    "    <svg width=\"80\" height=\"80\" viewBox=\"0 0 80 80\" fill=\"none\" xmlns=\"http://www.w3.org/2000/svg\">",
    "    <rect width=\"80\" height=\"80\" rx=\"40\" fill=\"white\"/>",
    "    <path fill-rule=\"evenodd\" clip-rule=\"evenodd\" d=\"M40.0605 24.2002C41.6475 24.2002 43.0791 ",
    "    25.0459 43.8896 26.4629L56.9111 49.1445C57.3018 49.8145 57.5088 50.5742 57.5088 51.3379C57.5088 ",
    "    53.9648 55.6729 55.8008 53.0459 55.8008H27.0586C24.4316 55.8008 22.5977 53.9648 22.5977 ",
    "    51.3379C22.5996 50.5723 22.8057 49.8184 23.1963 49.1582L36.2139 26.4639C37.041 25.0459 ",
    "    38.4795 24.2002 40.0605 24.2002Z\" fill=\"#DF1125\"/>",
    "    <path fill-rule=\"evenodd\" clip-rule=\"evenodd\" d=\"M39.0374 33.7061C39.2815 33.458 39.636 ",
    "    33.3213 40.0364 33.3213C40.4329 33.3213 40.7903 33.4619 41.0413 33.7188C41.2727 33.9551 ",
    "    41.3968 34.2744 41.3899 34.6191L41.1526 43.5195C41.139 44.2734 40.7581 44.6738 40.053 ",
    "    44.6738C39.3255 44.6738 38.9339 44.2734 38.9192 43.5176L38.6995 34.6025C38.6927 34.249 ",
    "    38.8099 33.9385 39.0374 33.7061ZM41.6768 48.6055C41.6768 49.4629 40.9492 50.1621 40.0537 ",
    "    50.1621C39.1729 50.1621 38.4297 49.4492 38.4297 48.6055C38.4297 47.748 39.1582 47.0488 ",
    "    40.0537 47.0488C40.9639 47.0488 41.6768 47.7324 41.6768 48.6055Z\" fill=\"white\"/>",
    "   </svg>",
    "",
    "        <div style=\"display: flex; align-items: center; gap: 10px; margin-bottom: 10px;\">",
    "            <h1 style=\"font-size: 18px; margin: 0; color: #291161;\">Срок действия сессии истёк</h1>",
    "        </div>",
    "        ",
    "        <p style=\"margin: 0; color: #5B4296; text-align: center;\">Пожалуйста, войдите снова, чтобы продолжить.</p>",
    "        ",
    "        <button id=\"loginRedirectButton\" style=\"",
    "            padding: 10px;",
    "            border: none;",
    "            margin: 10px 0;",
    "            background-color: #7527B2;",
    "            color: white;",
    "            cursor: pointer;",
    "            border-radius: 12px;",
    "            width: 100%;",
    "            max-width: 200px;",
    "            height: 40px;",
    "            transition: background-color 0.3s;\">Войти",
    "        </button>",
    "    </div>",
    "</div>",
    ""
  ]

/-- `localStorage.removeItem(key)`. -/
def removeItem (key : String) (storage : List (String × String)) : List (String × String) :=
  storage.filter fun kv => decide (kv.1 ≠ key)

/-- `localStorage.getItem(key)`. -/
def getItem (key : String) (storage : List (String × String)) : Option String :=
  storage.lookup key

/-- `showTokenExpiredModal()`: the body becomes the overlay, the four storage
keys are removed, every named cache is deleted (the deletion is started and not
awaited; the state after it has run is recorded), and the login button gets its
listener. -/
def showTokenExpiredModal (w : World) : World :=
  { client :=
      { w.client with
        bodyHTML := modalHTML
        bodyDisplay := "block"
        localStorage :=
          removeItem "redirectUrl" (removeItem "isAdmin"
            (removeItem "refreshToken" (removeItem "accessToken" w.client.localStorage)))
        caches := w.client.caches.map fun _ => []
        loginRedirectWired := true }
    trace := w.trace ++ [Effect.remediation] }

/-- `getTokenFromURL()`: the first `access_token` query parameter or `null`. -/
def getTokenFromURL (c : Client) : Option String :=
  c.search.lookup "access_token"

/-! ## Token check on user actions -/

/-- `checkToken()`: the result (or the exception) and the world after the call. -/
def checkToken (env : Builtins) (w : World) : Except JsError Bool × World :=
  let token := getTokenFromURL w.client
  if !strTruthy token then (.ok false, showTokenExpiredModal w)
  else
    match decodeToken env token with
    | .error e => (.error e, w)
    | .ok decodedToken =>
      match calculateTokenLifetime env decodedToken with
      | .error e => (.error e, w)
      | .ok _ =>
        if !decodedToken.truthy then (.ok false, showTokenExpiredModal w)
        else
          match isTokenExpired env token with
          | .error e => (.error e, w)
          | .ok true => (.ok false, showTokenExpiredModal w)
          | .ok false => (.ok true, w)

/-- A click event: the tag name of its target and whether its default action has
been prevented. -/
structure ClickEvent where
  tagName : String
  defaultPrevented : Bool
  deriving DecidableEq, Repr

/-- The click listener that `setupTokenCheckOnActions()` registers on the
document. -/
def setupTokenCheckOnActions (env : Builtins) (event : ClickEvent) (w : World) :
    Except JsError Unit × ClickEvent × World :=
  if event.tagName = "BUTTON" ∨ event.tagName = "A" then
    match checkToken env w with
    | (.error e, w1) => (.error e, event, w1)
    | (.ok valid, w1) =>
      if !valid then (.ok (), { event with defaultPrevented := true }, w1)
      else (.ok (), event, w1)
  else (.ok (), event, w)

/-- `goBack(url)`. -/
def goBack (env : Builtins) (url : String) (w : World) : Except JsError Unit × World :=
  match checkToken env w with
  | (.error e, w1) => (.error e, w1)
  | (.ok false, w1) => (.ok (), w1)
  | (.ok true, w1) =>
    let accessToken := getItem "accessToken" w1.client.localStorage
    let tokenFromUrl := getTokenFromURL w1.client
    let token := if strTruthy tokenFromUrl then tokenFromUrl else accessToken
    let shown := match token with
      | some t => t
      | none => "null"
    (.ok (), { w1 with client := { w1.client with href := url ++ "?access_token=" ++ shown } })

/-! ## The fetch wrapper -/

/-- Removes the first occurrence of `pat`, if there is one:
`s.replace(pat, "")` for a string pattern. -/
def removeFirst (pat : List Char) : List Char → List Char
  | [] => []
  | c :: cs =>
    if pat.isPrefixOf (c :: cs) then (c :: cs).drop pat.length
    else c :: removeFirst pat cs

/-- `(args[1] || {}).headers || {}`, then its `Authorization` member. -/
def authorizationHeader (args : FetchArgs) : Option String :=
  match args.init with
  | none => none
  | some requestOptions =>
    match requestOptions.headers with
    | none => none
    | some headers => headers.lookup "Authorization"

/-- The tail of the wrapper: call the original `fetch`, show the overlay on a
401 status, return the response. -/
def dispatchOriginal (originalFetch : FetchArgs → Except JsError Response)
    (args : FetchArgs) (w : World) : Except JsError (Option Response) × World :=
  let w1 : World := { w with trace := w.trace ++ [Effect.fetch args] }
  match originalFetch args with
  | .error e => (.error e, w1)
  | .ok response =>
    if response.status = 401 then (.ok (some response), showTokenExpiredModal w1)
    else (.ok (some response), w1)

/-- The token the wrapper extracts: `headers.Authorization.replace("Bearer ", "")`. -/
def bearerToken (args : FetchArgs) : Option String :=
  (authorizationHeader args).map fun a => String.mk (removeFirst "Bearer ".toList a.toList)

/-- The function that `enableFetchInterceptor()` installs as `window.fetch`,
over the `fetch` it found there. The result is what the returned promise settles
to: `none` is `undefined`, an error is a rejection. -/
def enableFetchInterceptor (env : Builtins)
    (originalFetch : FetchArgs → Except JsError Response)
    (args : FetchArgs) (w : World) : Except JsError (Option Response) × World :=
  if strTruthy (authorizationHeader args) then
    let token := bearerToken args
    match decodeToken env token with
    | .error e => (.error e, w)
    | .ok decodedToken =>
      if decodedToken.truthy then
        match isTokenExpired env token with
        | .error e => (.error e, w)
        | .ok true => (.ok none, showTokenExpiredModal w)
        | .ok false => dispatchOriginal originalFetch args w
      else dispatchOriginal originalFetch args w
  else dispatchOriginal originalFetch args w

/-- Whether the pre-dispatch check of the wrapper stops a call: the header is
present, its token decodes to a truthy payload and `isTokenExpired` reports it
expired. -/
def preDispatchStops (env : Builtins) (args : FetchArgs) : Bool :=
  strTruthy (authorizationHeader args) &&
    ((match decodeToken env (bearerToken args) with
      | .ok decodedToken => decodedToken.truthy
      | .error _ => false) &&
     (match isTokenExpired env (bearerToken args) with
      | .ok expired => expired
      | .error _ => false))

/-- The calls recorded between two worlds of one run. -/
def newEffects (before after : World) : List Effect :=
  after.trace.drop before.trace.length

/-! ## Modal manager: data -/

/-- The four geometry properties of a dialog, as CSS text. -/
structure Geometry where
  width : String
  height : String
  top : String
  left : String
  deriving DecidableEq, Repr

/-- The table `modalConfigs`: the descriptor registered for a dialog identifier. -/
def modalConfigs (modalId : String) : Option Geometry :=
  if modalId = "columnSelectModal" then
    some { width := "250px", height := "300px", top := "300px", left := "200px" }
  else if modalId = "corIdModal" then
    some { width := "300px", height := "500px", top := "300px", left := "250px" }
  else if modalId = "editModal" then
    some { width := "250px", height := "500px", top := "50px", left := "50px" }
  else if modalId = "myModal" then
    some { width := "250px", height := "450px", top := "50px", left := "250px" }
  else if modalId = "settingsModal" then
    some { width := "550px", height := "600px", top := "50px", left := "450px" }
  else if modalId = "sessionsModal" then
    some { width := "400px", height := "300px", top := "100px", left := "100px" }
  else if modalId = "step1Modal" then
    some { width := "460px", height := "650px", top := "20px", left := "300px" }
  else if modalId = "step2Modal" then
    some { width := "460px", height := "650px", top := "20px", left := "300px" }
  else if modalId = "step3Modal" then
    some { width := "460px", height := "650px", top := "20px", left := "300px" }
  else if modalId = "step4Modal" then
    some { width := "460px", height := "650px", top := "20px", left := "300px" }
  else none

/-- The inline style of a dialog element (`modal.style`), as the text last
assigned to each property; the empty string is an unset property. -/
structure Style where
  width : String
  height : String
  top : String
  left : String
  transform : String
  display : String
  deriving DecidableEq, Repr

/-- A dialog element: its inline style, what `getComputedStyle` reports for the
four geometry properties, whether its class list holds `minimized`, the text of
its maximize control (`none` when it has no such control), whether it has a
header region and whether that header has the `onmousedown` handler of
`makeModalDraggable`. -/
structure ModalElement where
  style : Style
  computed : Geometry
  minimizedClass : Bool
  maximizeButton : Option String
  hasHeader : Bool
  headerHandler : Bool
  deriving DecidableEq, Repr

/-- An entry of `modalStates`; a member that is `none` is undefined. -/
structure ModalState where
  width : Option String
  height : Option String
  top : Option String
  left : Option String
  minimized : Option Bool
  maximized : Option Bool
  deriving DecidableEq, Repr

/-- The drag in progress: the handlers a header `onmousedown` puts on
`document.onmousemove` and `document.onmouseup` close over the dialog and the
grab offset. -/
structure DragSession where
  modalId : String
  offsetX : Int
  offsetY : Int
  deriving DecidableEq, Repr

/-- The page as the modal manager sees it: `document.getElementById`, the global
`modalStates`, and the document-wide drag handlers (`none` when they are
`null`). -/
structure Page where
  elements : String → Option ModalElement
  modalStates : String → Option ModalState
  drag : Option DragSession

/-- The page with the element of `modalId` replaced. -/
def Page.setElement (p : Page) (modalId : String) (modal : ModalElement) : Page :=
  { p with elements := fun k => if k = modalId then some modal else p.elements k }

/-- The assignment `modalStates[modalId] = s`. -/
def Page.setState (p : Page) (modalId : String) (s : ModalState) : Page :=
  { p with modalStates := fun k => if k = modalId then some s else p.modalStates k }

/-- Truthiness of a possibly undefined flag (`flag || false`). -/
def flagTruthy : Option Bool → Bool
  | some true => true
  | _ => false

/-- The expression `a || b` on two strings. -/
def orString (a b : String) : String :=
  if a ≠ "" then a else b

/-- The geometry the code snapshots: for each property
`modal.style.x || getComputedStyle(modal).x`. -/
def currentGeometry (modal : ModalElement) : Geometry :=
  { width := orString modal.style.width modal.computed.width
    height := orString modal.style.height modal.computed.height
    top := orString modal.style.top modal.computed.top
    left := orString modal.style.left modal.computed.left }

/-- The four geometry properties of the inline style. -/
def styleGeometry (modal : ModalElement) : Geometry :=
  { width := modal.style.width
    height := modal.style.height
    top := modal.style.top
    left := modal.style.left }

/-- The assignment `modal.style.x = v`: an undefined `v` is not a CSS value and
leaves the property as it was. -/
def assignStyle (current : String) (v : Option String) : String :=
  match v with
  | some s => s
  | none => current

/-! ## Modal manager: operations -/

/-- `closeModal(modalId)`. -/
def closeModal (modalId : String) (p : Page) : Page :=
  match p.elements modalId with
  | some modal => p.setElement modalId { modal with style := { modal.style with display := "none" } }
  | none => p

/-- `minimizeModal(modalId)`; the `querySelector` call on a missing element
raises before anything is changed. -/
def minimizeModal (modalId : String) (p : Page) : Except JsError Page :=
  match p.elements modalId with
  | none => .error .typeError
  | some modal =>
    let p1 : Page :=
      if !flagTruthy ((p.modalStates modalId).bind fun s => s.minimized) then
        let g := currentGeometry modal
        p.setState modalId
          { width := some g.width
            height := some g.height
            top := some g.top
            left := some g.left
            minimized := some true
            maximized := some false }
      else p
    .ok (p1.setElement modalId
      { modal with
        minimizedClass := true
        style :=
          { modal.style with
            width := "200px"
            height := "40px"
            top := "auto"
            left := "10px"
            transform := "none" }
        maximizeButton := modal.maximizeButton.map fun _ => "🗖" })

/-- `maximizeModal(modalId)`. -/
def maximizeModal (modalId : String) (p : Page) : Except JsError Page :=
  match p.elements modalId with
  | none => .error .typeError
  | some modal =>
    let isMaximized := flagTruthy ((p.modalStates modalId).bind fun s => s.maximized)
    let isMinimized := flagTruthy ((p.modalStates modalId).bind fun s => s.minimized)
    if isMinimized then
      match p.modalStates modalId with
      | none => .error .typeError
      | some s =>
        .ok ((p.setState modalId { s with minimized := some false }).setElement modalId
          { modal with
            minimizedClass := false
            style :=
              { modal.style with
                width := assignStyle modal.style.width s.width
                height := assignStyle modal.style.height s.height
                top := assignStyle modal.style.top s.top
                left := assignStyle modal.style.left s.left
                transform := "none" }
            maximizeButton := modal.maximizeButton.map fun _ => "🗖" })
    else if isMaximized then
      match p.modalStates modalId with
      | none => .error .typeError
      | some s =>
        let style1 : Style :=
          match modalConfigs modalId with
          | some defaultConfig =>
            { modal.style with
              width := defaultConfig.width
              height := defaultConfig.height
              top := defaultConfig.top
              left := defaultConfig.left
              transform := "none" }
          | none => modal.style
        .ok ((p.setState modalId { s with maximized := some false }).setElement modalId
          { modal with
            style := style1
            maximizeButton := modal.maximizeButton.map fun _ => "🗖" })
    else
      let g := currentGeometry modal
      let s1 : ModalState :=
        match p.modalStates modalId with
        | some s =>
          { s with
            width := some g.width, height := some g.height, top := some g.top, left := some g.left }
        | none =>
          { width := some g.width, height := some g.height, top := some g.top, left := some g.left
            minimized := none, maximized := none }
      .ok ((p.setState modalId { s1 with maximized := some true }).setElement modalId
        { modal with
          style :=
            { modal.style with
              width := "100%"
              height := "100%"
              top := "0"
              left := "0"
              transform := "none" }
          maximizeButton := modal.maximizeButton.map fun _ => "🗗" })

/-- `initModalControls(modalId)`: the descriptor, when there is one, becomes the
inline geometry, and the initial runtime state is recorded. The click listeners
it adds to the controls are the actions of `Action` below. -/
def initModalControls (modalId : String) (p : Page) : Page :=
  match p.elements modalId with
  | none => p
  | some modal =>
    let config := modalConfigs modalId
    let style1 : Style :=
      match config with
      | some c =>
        { modal.style with
          width := c.width, height := c.height, top := c.top, left := c.left
          transform := "none" }
      | none => modal.style
    (p.setElement modalId { modal with style := style1 }).setState modalId
      { maximized := some false
        minimized := some false
        width := config.map fun c => c.width
        height := config.map fun c => c.height
        top := config.map fun c => c.top
        left := config.map fun c => c.left }

/-- `makeModalDraggable(modalId)`: installs the header handler; raises when the
element or its header is missing. -/
def makeModalDraggable (modalId : String) (p : Page) : Except JsError Page :=
  match p.elements modalId with
  | none => .error .typeError
  | some modal =>
    if modal.hasHeader then .ok (p.setElement modalId { modal with headerHandler := true })
    else .error .typeError

/-- The header `onmousedown` handler of a draggable dialog: it records the grab
offset (`offsetLeft` and `offsetTop` are the layout position of the dialog at
that moment) and installs the document-wide handlers. -/
def headerMouseDown (modalId : String) (clientX clientY offsetLeft offsetTop : Int)
    (p : Page) : Page :=
  match p.elements modalId with
  | none => p
  | some modal =>
    if modal.hasHeader && modal.headerHandler then
      { p with
        drag := some
          { modalId := modalId, offsetX := clientX - offsetLeft, offsetY := clientY - offsetTop } }
    else p

/-- The `document.onmousemove` handler: while a drag is in progress the dialog
follows the pointer. -/
def documentMouseMove (clientX clientY : Int) (p : Page) : Page :=
  match p.drag with
  | none => p
  | some d =>
    match p.elements d.modalId with
    | none => p
    | some modal =>
      p.setElement d.modalId
        { modal with
          style :=
            { modal.style with
              left := toString (clientX - d.offsetX) ++ "px"
              top := toString (clientY - d.offsetY) ++ "px" } }

/-- The `document.onmouseup` handler: the drag ends and both document-wide
handlers are removed. -/
def documentMouseUp (p : Page) : Page :=
  { p with drag := none }

/-- User actions on the dialogs of a page. -/
inductive Action
  | minimize (modalId : String)
  | maximize (modalId : String)
  | close (modalId : String)
  | mouseDown (modalId : String) (clientX clientY offsetLeft offsetTop : Int)
  | mouseMove (clientX clientY : Int)
  | mouseUp
  deriving DecidableEq, Repr

/-- One action; an exception raised by a handler leaves the page as it was. -/
def step (p : Page) : Action → Page
  | .minimize modalId =>
    match minimizeModal modalId p with
    | .ok p1 => p1
    | .error _ => p
  | .maximize modalId =>
    match maximizeModal modalId p with
    | .ok p1 => p1
    | .error _ => p
  | .close modalId => closeModal modalId p
  | .mouseDown modalId clientX clientY offsetLeft offsetTop =>
    headerMouseDown modalId clientX clientY offsetLeft offsetTop p
  | .mouseMove clientX clientY => documentMouseMove clientX clientY p
  | .mouseUp => documentMouseUp p

/-- A finite sequence of actions, first to last. -/
def run (p : Page) (actions : List Action) : Page :=
  actions.foldl step p

/-! ## Statements about the runtime state -/

/-- The two flags of a runtime state are not both set. -/
def Exclusive (s : ModalState) : Prop :=
  ¬ (s.minimized = some true ∧ s.maximized = some true)

/-- The dialog has a runtime state and its flags are not both set. -/
def HasExclusiveState (modalId : String) (p : Page) : Prop :=
  ∃ s, p.modalStates modalId = some s ∧ Exclusive s

/-! ## Reference decoders

What the built-ins do on the texts the decoder hands them, and the decoding the
token format asks for. They are used to state that `decodeToken` decodes
base64url. -/

/-- The value of an ASCII letter or digit, the same in the base64 and in the
base64url alphabet. -/
def alphanumericValue (c : Char) : Option Nat :=
  if 65 ≤ c.toNat ∧ c.toNat ≤ 90 then some (c.toNat - 65)
  else if 97 ≤ c.toNat ∧ c.toNat ≤ 122 then some (c.toNat - 97 + 26)
  else if 48 ≤ c.toNat ∧ c.toNat ≤ 57 then some (c.toNat - 48 + 52)
  else none

/-- The value of a character of the base64 alphabet (plus is 62, slash is 63). -/
def base64Value (c : Char) : Option Nat :=
  match alphanumericValue c with
  | some v => some v
  | none => if c = '+' then some 62 else if c = '/' then some 63 else none

/-- The value of a character of the base64url alphabet (minus is 62, underscore
is 63). -/
def base64UrlValue (c : Char) : Option Nat :=
  match alphanumericValue c with
  | some v => some v
  | none => if c = '-' then some 62 else if c = '_' then some 63 else none

/-- The values of all characters of a text, when every character has one. -/
def allValues (value : Char → Option Nat) : List Char → Option (List Nat)
  | [] => some []
  | c :: cs =>
    match value c, allValues value cs with
    | some v, some vs => some (v :: vs)
    | _, _ => none

/-- A number as a byte. -/
def toByte (n : Nat) : Fin 256 :=
  Fin.ofNat n

/-- Groups of four six-bit values as groups of three bytes; a last group of
three or two values gives two bytes or one byte, its spare bits discarded. -/
def sextetsToBytes : List Nat → List (Fin 256)
  | a :: b :: c :: d :: rest =>
    toByte (a * 4 + b / 16) :: toByte (b % 16 * 16 + c / 4) :: toByte (c % 4 * 64 + d) ::
      sextetsToBytes rest
  | [a, b, c] => [toByte (a * 4 + b / 16), toByte (b % 16 * 16 + c / 4)]
  | [a, b] => [toByte (a * 4 + b / 16)]
  | _ => []

/-- ASCII whitespace: tab, line feed, form feed, carriage return, space. -/
def isAsciiWhitespace (c : Char) : Bool :=
  c.toNat = 9 || c.toNat = 10 || c.toNat = 12 || c.toNat = 13 || c.toNat = 32

/-- Removes one or two trailing equals signs from a text whose length is a
multiple of four. -/
def dropPadding (data : List Char) : List Char :=
  if data.length % 4 = 0 then
    match data.reverse with
    | c1 :: c2 :: r =>
      if c1 = '=' then (if c2 = '=' then r.reverse else (c2 :: r).reverse) else data
    | _ => data
  else data

/-- The forgiving-base64 decoding of the HTML standard, which is what `atob`
performs: whitespace is removed, then padding; a length of one more than a
multiple of four, or a character outside the base64 alphabet, is an
`InvalidCharacterError`. -/
def forgivingBase64Decode (s : String) : Except JsError (List (Fin 256)) :=
  let data := dropPadding (s.toList.filter fun c => !isAsciiWhitespace c)
  if data.length % 4 = 1 then .error .invalidCharacter
  else
    match allValues base64Value data with
    | none => .error .invalidCharacter
    | some vs => .ok (sextetsToBytes vs)

/-- The base64url decoding of a token segment (unpadded, as tokens carry it):
`none` when the segment is not base64url. -/
def base64UrlDecode (seg : List Char) : Option (List (Fin 256)) :=
  if seg.length % 4 = 1 then none
  else
    match allValues base64UrlValue seg with
    | none => none
    | some vs => some (sextetsToBytes vs)

/-- The value of a hexadecimal digit, in either case. -/
def hexValue (c : Char) : Option Nat :=
  if 48 ≤ c.toNat ∧ c.toNat ≤ 57 then some (c.toNat - 48)
  else if 97 ≤ c.toNat ∧ c.toNat ≤ 102 then some (c.toNat - 97 + 10)
  else if 65 ≤ c.toNat ∧ c.toNat ≤ 70 then some (c.toNat - 65 + 10)
  else none

/-- The byte written by two hexadecimal digits. -/
def hexPair (digits : List Char) : Option (Fin 256) :=
  match digits with
  | [hi, lo] =>
    match hexValue hi, hexValue lo with
    | some h, some l => some (toByte (16 * h + l))
    | _, _ => none
  | _ => none

/-- The bytes of a text that consists of percent escapes only: `none` when the
text has anything else. -/
def percentDecode : List Char → Option (List (Fin 256))
  | [] => some []
  | c :: hi :: lo :: rest =>
    if c = '%' then
      match hexPair [hi, lo], percentDecode rest with
      | some b, some bytes => some (b :: bytes)
      | _, _ => none
    else none
  | _ => none

/-- The text of a sequence of ASCII bytes; a byte outside ASCII is refused. -/
def asciiText (bytes : List (Fin 256)) : Except JsError String :=
  if bytes.all fun b => decide (b.val < 128) then
    .ok (String.mk (bytes.map fun b => Char.ofNat b.val))
  else .error .uriError

/-! ## Sample inputs -/

/-- Example payloads: the base64 text of a middle segment, the JSON text it
encodes, and the value `JSON.parse` gives for that text. -/
def samplePayloads : List (String × String × JsonValue) :=
  [ ("eyJleHAiOjE3MDAwMDAwMDB9", "\x7b\"exp\":1700000000\x7d", .claims ⟨some 1700000000⟩),
    ("eyJleHAiOjE3MDAwMDM2MDB9", "\x7b\"exp\":1700003600\x7d", .claims ⟨some 1700003600⟩),
    ("eyJleHAiOjE2OTk5OTk5OTl9", "\x7b\"exp\":1699999999\x7d", .claims ⟨some 1699999999⟩),
    ("e30", "\x7b\x7d", .claims ⟨none⟩) ]

/-- The binary string with the character codes of an ASCII text. -/
def binaryOf (text : String) : List (Fin 256) :=
  text.toList.map fun c => Fin.ofNat c.toNat

/-- Built-ins that agree with the browser on the example payloads and raise
elsewhere, at a clock reading of 1700000000 seconds (and 123 milliseconds). -/
def sampleBuiltins : Builtins where
  atob s :=
    match samplePayloads.find? fun r => r.1 == s with
    | some r => .ok (binaryOf r.2.1)
    | none => .error .invalidCharacter
  decodeURIComponent s :=
    match samplePayloads.find? fun r => percentEncode (binaryOf r.2.1) == s with
    | some r => .ok r.2.1
    | none => .error .uriError
  jsonParse s :=
    match samplePayloads.find? fun r => r.2.1 == s with
    | some r => .ok r.2.2
    | none => .error .parseError
  dateNow := 1700000000123

/-- A token whose payload is the first example: `exp` equal to the clock. -/
def boundaryToken : String := "eyJhbGciOiJIUzI1NiJ9.eyJleHAiOjE3MDAwMDAwMDB9.c2ln"

/-- A token whose payload is the second example: `exp` one hour ahead. -/
def freshToken : String := "eyJhbGciOiJIUzI1NiJ9.eyJleHAiOjE3MDAwMDM2MDB9.c2ln"

/-- A token whose payload is the third example: `exp` one second in the past. -/
def staleToken : String := "eyJhbGciOiJIUzI1NiJ9.eyJleHAiOjE2OTk5OTk5OTl9.c2ln"

/-- A string with no separator, which is not a token. -/
def brokenToken : String := "abc"

/-- An empty client on a page whose URL carries the given query parameters. -/
def sampleClient (search : List (String × String)) : Client :=
  { bodyHTML := "<button>Open</button>"
    bodyDisplay := ""
    loginRedirectWired := false
    localStorage := [("accessToken", "t"), ("theme", "dark")]
    caches := some ["pages"]
    search := search
    href := "/viewer" }

/-- The world of `sampleClient` before any recorded call. -/
def sampleWorld (search : List (String × String)) : World :=
  { client := sampleClient search, trace := [] }

/-- A `fetch` call without options, hence without an `Authorization` header. -/
def plainArgs : FetchArgs :=
  { input := "/api/studies", init := none }

/-- A `fetch` call whose `Authorization` header carries the given bearer token. -/
def bearerArgs (token : String) : FetchArgs :=
  { input := "/api/studies"
    init := some { headers := some [("Authorization", "Bearer " ++ token)] } }

/-- A network layer that answers every call with the given status. -/
def statusFetch (status : Nat) : FetchArgs → Except JsError Response :=
  fun _ => .ok { status := status, body := "[]" }

/-- A network layer on which every call fails. -/
def failingFetch : FetchArgs → Except JsError Response :=
  fun _ => .error .networkError

/-- A dialog element before initialisation: no inline geometry, a computed
geometry, a maximize control and a draggable header. -/
def sampleElement : ModalElement :=
  { style := { width := "", height := "", top := "", left := "", transform := "", display := "" }
    computed := { width := "500px", height := "400px", top := "10px", left := "20px" }
    minimizedClass := false
    maximizeButton := some "🗖"
    hasHeader := true
    headerHandler := true }

/-- A page whose only dialog is `myModal`, before initialisation. -/
def samplePage : Page :=
  { elements := fun k => if k = "myModal" then some sampleElement else none
    modalStates := fun _ => none
    drag := none }

/-- The sample page after initialisation and one drag of `myModal` by ten pixels
to the right and twenty pixels down. -/
def draggedPage : Page :=
  run (initModalControls "myModal" samplePage)
    [.mouseDown "myModal" 300 60 250 50, .mouseMove 310 80, .mouseUp]

/-- The dialog of `draggedPage`: the descriptor of `myModal`, moved by the drag. -/
def draggedElement : ModalElement :=
  { sampleElement with
    style :=
      { width := "250px", height := "450px", top := "70px", left := "260px"
        transform := "none", display := "" } }

/-- A sequence of actions that passes through every state of a dialog. -/
def sampleActions : List Action :=
  [.maximize "myModal", .minimize "myModal", .mouseDown "myModal" 300 60 250 50,
    .mouseMove 310 80, .mouseUp, .maximize "myModal", .close "myModal", .maximize "myModal",
    .minimize "otherModal", .minimize "myModal", .minimize "myModal", .maximize "myModal"]

/-- A world whose URL has no `access_token` parameter while local storage holds
a token that is live for one more hour. -/
def storedTokenWorld : World :=
  { client :=
      { sampleClient [] with
        localStorage := [("accessToken", freshToken), ("theme", "dark")] }
    trace := [] }

/-- The dragged sample page after `myModal` has been minimized. -/
def minimizedPage : Page :=
  run draggedPage [.minimize "myModal"]

/-- The dialog of `minimizedPage`: the fixed minimized geometry. -/
def minimizedElement : ModalElement :=
  { sampleElement with
    minimizedClass := true
    style :=
      { width := "200px", height := "40px", top := "auto", left := "10px"
        transform := "none", display := "" } }

/-- The runtime state of `myModal` in `minimizedPage`: the snapshot of the
dragged geometry, `minimized` set. -/
def minimizedState : ModalState :=
  { width := some "250px", height := some "450px", top := some "70px", left := some "260px"
    minimized := some true, maximized := some false }

/-- Built-ins that decode for real: `atob` is the forgiving-base64 decoding,
`decodeURIComponent` reads percent escapes of ASCII text, and `JSON.parse`
knows the example payloads and the payload of `urlAlphabetToken`. -/
def standardBuiltins : Builtins where
  atob := forgivingBase64Decode
  decodeURIComponent s :=
    match percentDecode s.toList with
    | some bytes => asciiText bytes
    | none => .error .uriError
  jsonParse s :=
    if s = "\x7b\"exp\":1700003600,\"u\":\"?\",\"v\":\"?>\"\x7d" then
      .ok (.claims ⟨some 1700003600⟩)
    else
      match samplePayloads.find? fun r => r.2.1 == s with
      | some r => .ok r.2.2
      | none => .error .parseError
  dateNow := 1700000000123

/-- A token whose middle segment uses both characters that base64url does not
share with base64. -/
def urlAlphabetToken : String :=
  "eyJhbGciOiJIUzI1NiJ9.eyJleHAiOjE3MDAwMDM2MDAsInUiOiI_IiwidiI6Ij8-In0.c2ln"

/-! # Theorems -/

/-! ## Decoding -/

/-- A text without the separator is a single segment. -/
theorem splitOnDot_of_not_mem (l : List Char) (h : '.' ∉ l) : splitOnDot l = [l] := by
  induction l with
  | nil => rfl
  | cons c cs ih =>
    have hc : c ≠ '.' := fun hc => h (by simp [hc])
    have hcs : '.' ∉ cs := fun hm => h (List.mem_cons_of_mem _ hm)
    simp [splitOnDot, ih hcs, hc]

/-- Decoding always returns a value. -/
theorem decodeToken_ok (env : Builtins) (token : Option String) :
    ∃ v, decodeToken env token = .ok v := by
  unfold decodeToken
  cases decodeTokenBody env token with
  | ok v => exact ⟨v, rfl⟩
  | error e => exact ⟨.null, rfl⟩

/-! ## Decoding is base64url decoding -/

/-- A base64url character, once translated, is the base64 character of the same
value, and is neither whitespace nor padding. -/
theorem base64Value_translate (c : Char) (v : Nat) (h : base64UrlValue c = some v) :
    base64Value ((fun c => if c = '_' then '/' else c) ((fun c => if c = '-' then '+' else c) c))
        = some v ∧
      isAsciiWhitespace
        ((fun c => if c = '_' then '/' else c) ((fun c => if c = '-' then '+' else c) c))
        = false ∧
      (fun c => if c = '_' then '/' else c) ((fun c => if c = '-' then '+' else c) c) ≠ '=' := by
  unfold base64UrlValue at h
  cases hal : alphanumericValue c with
  | some v' =>
    rw [hal] at h
    have h1 : c ≠ '-' := by
      intro hc
      subst hc
      have hn : alphanumericValue '-' = none := by decide
      rw [hn] at hal
      cases hal
    have h2 : c ≠ '_' := by
      intro hc
      subst hc
      have hn : alphanumericValue '_' = none := by decide
      rw [hn] at hal
      cases hal
    have h3 : c ≠ '=' := by
      intro hc
      subst hc
      have hn : alphanumericValue '=' = none := by decide
      rw [hn] at hal
      cases hal
    have h4 : isAsciiWhitespace c = false := by
      cases hw : isAsciiWhitespace c with
      | false => rfl
      | true =>
        exfalso
        simp only [isAsciiWhitespace, Bool.or_eq_true, decide_eq_true_eq] at hw
        unfold alphanumericValue at hal
        rcases hw with (((hw | hw) | hw) | hw) | hw <;> simp [hw] at hal
    simp only [if_neg h1, if_neg h2]
    refine ⟨?_, h4, h3⟩
    unfold base64Value
    rw [hal]
    exact h
  | none =>
    rw [hal] at h
    by_cases h1 : c = '-'
    · subst h1
      simp only [if_true] at h
      cases h
      decide
    · by_cases h2 : c = '_'
      · subst h2
        simp only [if_neg h1, if_true] at h
        cases h
        decide
      · simp [h1, h2] at h

/-- A base64url segment, once translated, reads as the same values in base64,
holds no whitespace and no padding. -/
theorem allValues_translate (seg : List Char) (vs : List Nat)
    (h : allValues base64UrlValue seg = some vs) :
    allValues base64Value (base64UrlToBase64 seg) = some vs ∧
      ((base64UrlToBase64 seg).filter fun c => !isAsciiWhitespace c) = base64UrlToBase64 seg ∧
      '=' ∉ base64UrlToBase64 seg := by
  induction seg generalizing vs with
  | nil =>
    simp only [allValues] at h
    cases h
    exact ⟨rfl, rfl, by simp [base64UrlToBase64]⟩
  | cons c cs ih =>
    simp only [allValues] at h
    cases hc : base64UrlValue c with
    | none => simp [hc] at h
    | some v =>
      cases hcs : allValues base64UrlValue cs with
      | none => simp [hc, hcs] at h
      | some ws =>
        simp only [hc, hcs] at h
        cases h
        obtain ⟨i1, i2, i3⟩ := ih ws hcs
        obtain ⟨c1, c2, c3⟩ := base64Value_translate c v hc
        unfold base64UrlToBase64 at i1 i2 i3 ⊢
        simp only [List.map_cons, allValues, c1, i1]
        refine ⟨trivial, ?_, ?_⟩
        · rw [List.filter_cons, if_pos (by simp [c2]), i2]
        · intro hm
          rcases List.mem_cons.mp hm with hm | hm
          · exact c3 hm.symm
          · exact i3 hm

/-- A text without padding is left as it is. -/
theorem dropPadding_of_not_mem (data : List Char) (h : '=' ∉ data) : dropPadding data = data := by
  unfold dropPadding
  split
  · cases hr : data.reverse with
    | nil => rfl
    | cons c1 t =>
      have hc1 : c1 ≠ '=' := by
        intro hc
        apply h
        have : c1 ∈ data.reverse := by rw [hr]; exact List.mem_cons_self _ _
        rw [← hc]
        exact List.mem_reverse.mp this
      cases t with
      | nil => rfl
      | cons c2 r => simp only [if_neg hc1]
  · rfl

/-- The segment that `decodeToken` hands to `atob` decodes, as base64, to the
bytes the original segment encodes as base64url. -/
theorem forgivingBase64Decode_translate (seg : List Char) (bin : List (Fin 256))
    (h : base64UrlDecode seg = some bin) :
    forgivingBase64Decode (String.mk (base64UrlToBase64 seg)) = .ok bin := by
  unfold base64UrlDecode at h
  by_cases hlen : seg.length % 4 = 1
  · simp [hlen] at h
  · simp only [if_neg hlen] at h
    cases hvs : allValues base64UrlValue seg with
    | none => simp [hvs] at h
    | some vs =>
      simp only [hvs, Option.some.injEq] at h
      obtain ⟨i1, i2, i3⟩ := allValues_translate seg vs hvs
      have hl : (base64UrlToBase64 seg).length = seg.length := by
        simp [base64UrlToBase64]
      have hd : (String.mk (base64UrlToBase64 seg)).toList = base64UrlToBase64 seg := rfl
      unfold forgivingBase64Decode
      simp only [hd, i2, dropPadding_of_not_mem _ i3, hl, if_neg hlen, i1, h]

set_option maxRecDepth 100000 in
/-- The two digits written for a byte read back as that byte. -/
theorem hexPair_hexByte : ∀ b : Fin 256, hexPair (hexByte b.val) = some b := by
  decide

/-- The percent escapes that `decodeToken` writes read back as the bytes they
were written from. -/
theorem percentDecode_percentEncode (bin : List (Fin 256)) :
    percentDecode (percentEncode bin).toList = some bin := by
  unfold percentEncode
  induction bin with
  | nil => rfl
  | cons b bs ih =>
    have hb := hexPair_hexByte b
    simp only [List.flatMap_cons, List.cons_append] at ih ⊢
    match hd : hexByte b.val, hb with
    | [hi, lo], hb =>
      have ih2 : percentDecode (bs.flatMap fun b => '%' :: hexByte b.val) = some bs := ih
      simp only [List.cons_append, percentDecode, if_true, hb]
      show (match some b, percentDecode (bs.flatMap fun b => '%' :: hexByte b.val) with
        | some b, some bytes => some (b :: bytes)
        | _, _ => none) = some (b :: bs)
      rw [ih2]
    | [], hb => simp [hexPair] at hb
    | [_], hb => simp [hexPair] at hb
    | _ :: _ :: _ :: _, hb => simp [hexPair] at hb

/-- C2. `decodeToken` never raises: it always returns a value; it returns `null`
for an absent token, for a token without the separator, when `atob` rejects the
middle segment, when the decoded bytes are not a URI-decodable text and when
`JSON.parse` rejects the text; and when every step succeeds it returns the value
parsed from the decoded middle segment. The last part says that this decoding is
base64url decoding: in a browser whose `atob` is the forgiving-base64 decoding
and whose `decodeURIComponent` reads percent escapes as the UTF-8 text `utf8` of
their bytes, a token whose middle segment is the base64url encoding of the bytes
`bin` decodes to what `JSON.parse` makes of the text of `bin` (and to `null`
when the bytes are not a text or the text is not JSON). -/
theorem decodeToken_never_raises (env : Builtins) (token : Option String) :
    (∃ v, decodeToken env token = .ok v) ∧
    (token = none → decodeToken env token = .ok .null) ∧
    (∀ t, token = some t → '.' ∉ t.toList → decodeToken env token = .ok .null) ∧
    (∀ t seg, token = some t → (splitOnDot t.toList)[1]? = some seg →
      (∀ e, env.atob (String.mk (base64UrlToBase64 seg)) = .error e →
        decodeToken env token = .ok .null) ∧
      (∀ bin, env.atob (String.mk (base64UrlToBase64 seg)) = .ok bin →
        (∀ e, env.decodeURIComponent (percentEncode bin) = .error e →
          decodeToken env token = .ok .null) ∧
        (∀ text, env.decodeURIComponent (percentEncode bin) = .ok text →
          (∀ e, env.jsonParse text = .error e → decodeToken env token = .ok .null) ∧
          (∀ v, env.jsonParse text = .ok v → decodeToken env token = .ok v)))) ∧
    (∀ t seg bin (utf8 : List (Fin 256) → Except JsError String),
      token = some t → (splitOnDot t.toList)[1]? = some seg →
      base64UrlDecode seg = some bin →
      (∀ s, env.atob s = forgivingBase64Decode s) →
      (∀ s bytes, percentDecode s.toList = some bytes →
        env.decodeURIComponent s = utf8 bytes) →
      decodeToken env token = .ok
        (match utf8 bin with
         | .ok text =>
           match env.jsonParse text with
           | .ok v => v
           | .error _ => .null
         | .error _ => .null)) := by
  refine ⟨decodeToken_ok env token, ?_, ?_, ?_, ?_⟩
  · intro h
    subst h
    rfl
  · intro t h hdot
    subst h
    simp only [decodeToken, decodeTokenBody, splitOnDot_of_not_mem _ hdot]
    rfl
  · intro t seg h hseg
    subst h
    refine ⟨?_, ?_⟩
    · intro e he
      simp only [decodeToken, decodeTokenBody, hseg, he]
    · intro bin hbin
      refine ⟨?_, ?_⟩
      · intro e he
        simp only [decodeToken, decodeTokenBody, hseg, hbin, he]
      · intro text htext
        refine ⟨?_, ?_⟩
        · intro e he
          simp only [decodeToken, decodeTokenBody, hseg, hbin, htext, he]
        · intro v hv
          simp only [decodeToken, decodeTokenBody, hseg, hbin, htext, hv]
  · intro t seg bin utf8 h hseg hbin hatob hdec
    subst h
    have h1 : env.atob (String.mk (base64UrlToBase64 seg)) = .ok bin := by
      rw [hatob]
      exact forgivingBase64Decode_translate seg bin hbin
    have h2 : env.decodeURIComponent (percentEncode bin) = utf8 bin :=
      hdec _ bin (percentDecode_percentEncode bin)
    simp only [decodeToken, decodeTokenBody, hseg, h1, h2]
    cases hu : utf8 bin with
    | error e => rfl
    | ok text =>
      cases hj : env.jsonParse text with
      | error e => simp only [hj]
      | ok v => simp only [hj]

/-- Both halves of C2 on examples: a well-formed token decodes to the claims of
its middle segment, and a string without the separator, a middle segment that is
not base64 and an absent token decode to `null`. The last example is a token
whose middle segment holds a minus sign and an underscore, in a browser that
decodes base64 for real. -/
theorem decodeToken_never_raises_witness :
    decodeToken sampleBuiltins (some freshToken) = .ok (.claims ⟨some 1700003600⟩) ∧
    decodeToken sampleBuiltins (some brokenToken) = .ok .null ∧
    decodeToken sampleBuiltins (some "a.!!.c") = .ok .null ∧
    decodeToken sampleBuiltins none = .ok .null ∧
    ('-' ∈ "eyJleHAiOjE3MDAwMDM2MDAsInUiOiI_IiwidiI6Ij8-In0".toList ∧
      '_' ∈ "eyJleHAiOjE3MDAwMDM2MDAsInUiOiI_IiwidiI6Ij8-In0".toList) ∧
    decodeToken standardBuiltins (some urlAlphabetToken) = .ok (.claims ⟨some 1700003600⟩) :=
  have h := decodeToken_never_raises sampleBuiltins (some freshToken)
  have hb := decodeToken_never_raises sampleBuiltins (some brokenToken)
  have hc := decodeToken_never_raises sampleBuiltins (some "a.!!.c")
  have hu := decodeToken_never_raises standardBuiltins (some urlAlphabetToken)
  ⟨((((h.2.2.2.1 freshToken "eyJleHAiOjE3MDAwMDM2MDB9".toList rfl (by decide)).2
        (binaryOf "\x7b\"exp\":1700003600\x7d") (by decide)).2
        "\x7b\"exp\":1700003600\x7d" (by decide)).2 _ (by decide)),
    hb.2.2.1 brokenToken rfl (by decide),
    (hc.2.2.2.1 "a.!!.c" "!!".toList rfl (by decide)).1 .invalidCharacter (by decide),
    (decodeToken_never_raises sampleBuiltins none).2.1 rfl,
    ⟨by decide, by decide⟩,
    hu.2.2.2.2 urlAlphabetToken "eyJleHAiOjE3MDAwMDM2MDAsInUiOiI_IiwidiI6Ij8-In0".toList
      (binaryOf "\x7b\"exp\":1700003600,\"u\":\"?\",\"v\":\"?>\"\x7d") asciiText rfl
      (by decide) (by decide) (fun _ => rfl)
      (fun s bytes hs => by
        show (match percentDecode s.toList with
          | some bytes => asciiText bytes
          | none => .error .uriError) = asciiText bytes
        rw [hs])⟩

/-! ## Expiry -/

/-- What `isTokenExpired` computes on a token that decodes to an object. -/
theorem isTokenExpired_of_claims (env : Builtins) (token : Option String) (c : Claims)
    (h : decodeToken env token = .ok (.claims c)) :
    isTokenExpired env token = .ok
      (match c.exp with
       | none => true
       | some e => decide (e = 0 ∨ e < currentTime env)) := by
  unfold isTokenExpired
  rw [h]
  cases hc : c.exp with
  | none => simp [JsonValue.truthy, JsonValue.getExp, hc]
  | some e =>
    by_cases he : e = 0
    · simp [JsonValue.truthy, JsonValue.getExp, hc, he]
    · simp [JsonValue.truthy, JsonValue.getExp, hc, he]

/-- What `isTokenExpired` computes on a token that decodes to a falsy value. -/
theorem isTokenExpired_of_falsy (env : Builtins) (token : Option String) (v : JsonValue)
    (h : decodeToken env token = .ok v) (hv : v.truthy = false) :
    isTokenExpired env token = .ok true := by
  unfold isTokenExpired
  rw [h]
  simp [hv]

/-- `isTokenExpired` never raises. -/
theorem isTokenExpired_ok (env : Builtins) (token : Option String) :
    ∃ b, isTokenExpired env token = .ok b := by
  obtain ⟨v, hv⟩ := decodeToken_ok env token
  unfold isTokenExpired
  rw [hv]
  cases v with
  | null => exact ⟨true, by simp [JsonValue.truthy]⟩
  | bool b => cases b <;> simp [JsonValue.truthy, JsonValue.getExp]
  | num n => by_cases hn : n = 0 <;> simp [JsonValue.truthy, JsonValue.getExp, hn]
  | str s => by_cases hs : s = "" <;> simp [JsonValue.truthy, JsonValue.getExp, hs]
  | claims c =>
    cases hc : c.exp with
    | none => simp [JsonValue.truthy, JsonValue.getExp, hc]
    | some e => by_cases he : e = 0 <;> simp [JsonValue.truthy, JsonValue.getExp, hc, he]

/-- C1, evaluated at the boundary. The token decodes to a payload whose `exp` is
1700000000, the clock reads 1700000000 seconds, and `isTokenExpired` answers
false, while `calculateTokenLifetime` on the same payload reports a lifetime of
zero (its already-expired branch). -/
theorem isTokenExpired_false_at_boundary :
    decodeToken sampleBuiltins (some boundaryToken) = .ok (.claims ⟨some 1700000000⟩) ∧
    currentTime sampleBuiltins = 1700000000 ∧
    isTokenExpired sampleBuiltins (some boundaryToken) = .ok false ∧
    calculateTokenLifetime sampleBuiltins (.claims ⟨some 1700000000⟩) = .ok (some 0) := by
  refine ⟨by decide, by decide, by decide, by decide⟩


/-! ## Token check on user actions -/

/-- With no usable `access_token` parameter `checkToken` shows the overlay and
answers false. -/
theorem checkToken_of_missing (env : Builtins) (w : World)
    (h : strTruthy (getTokenFromURL w.client) = false) :
    checkToken env w = (.ok false, showTokenExpiredModal w) := by
  simp [checkToken, h]

/-- On a token that decodes to `null`, `checkToken` raises inside
`calculateTokenLifetime` and changes nothing. -/
theorem checkToken_of_null (env : Builtins) (w : World)
    (h : strTruthy (getTokenFromURL w.client) = true)
    (hd : decodeToken env (getTokenFromURL w.client) = .ok .null) :
    checkToken env w = (.error .typeError, w) := by
  simp [checkToken, h, hd, calculateTokenLifetime, JsonValue.getExp]

/-- On a token that decodes to an object, `checkToken` never raises: it answers
whether `isTokenExpired` reports the token as live, and shows the overlay when it
is not. -/
theorem checkToken_of_claims (env : Builtins) (w : World) (c : Claims) (b : Bool)
    (h : strTruthy (getTokenFromURL w.client) = true)
    (hd : decodeToken env (getTokenFromURL w.client) = .ok (.claims c))
    (he : isTokenExpired env (getTokenFromURL w.client) = .ok b) :
    checkToken env w = (.ok (!b), if b then showTokenExpiredModal w else w) := by
  have hl : ∃ r, calculateTokenLifetime env (.claims c) = .ok r := by
    unfold calculateTokenLifetime
    cases hc : c.exp with
    | none => simp [JsonValue.getExp, hc]
    | some e =>
      by_cases h0 : e = 0
      · simp [JsonValue.getExp, hc, h0]
      · by_cases hr : e - currentTime env ≤ 0 <;> simp [JsonValue.getExp, hc, h0, hr]
  obtain ⟨r, hr⟩ := hl
  cases b <;> simp [checkToken, h, hd, hr, he, JsonValue.truthy]

/-- C3, evaluated at an undecodable token. The page URL carries
`access_token=abc`; the token decodes to `null`; `checkToken` raises a
`TypeError` instead of returning false, the overlay is not shown (the world is
unchanged, its record of calls stays empty), and the click listener on a button
ends with the same exception without preventing the default action. -/
theorem checkToken_raises_on_undecodable :
    decodeToken sampleBuiltins (some brokenToken) = .ok .null ∧
    checkToken sampleBuiltins (sampleWorld [("access_token", brokenToken)]) =
      (.error .typeError, sampleWorld [("access_token", brokenToken)]) ∧
    setupTokenCheckOnActions sampleBuiltins { tagName := "BUTTON", defaultPrevented := false }
        (sampleWorld [("access_token", brokenToken)]) =
      (.error .typeError, { tagName := "BUTTON", defaultPrevented := false },
        sampleWorld [("access_token", brokenToken)]) := by
  refine ⟨by decide, by decide, by decide⟩

/-! ## The fetch wrapper -/

/-- The empty string is not a token. -/
theorem decodeToken_empty (env : Builtins) : decodeToken env (some "") = .ok .null := by
  rfl

/-- A call the pre-dispatch check stops: nothing is sent, the overlay is shown
and the promise resolves to `undefined`. -/
theorem wrapper_of_stops (env : Builtins) (originalFetch : FetchArgs → Except JsError Response)
    (args : FetchArgs) (w : World) (h : preDispatchStops env args = true) :
    enableFetchInterceptor env originalFetch args w = (.ok none, showTokenExpiredModal w) := by
  unfold preDispatchStops at h
  unfold enableFetchInterceptor
  cases hd : decodeToken env (bearerToken args) with
  | error e => simp [hd] at h
  | ok v =>
    cases he : isTokenExpired env (bearerToken args) with
    | error e => simp [he] at h
    | ok b =>
      simp only [hd, he, Bool.and_eq_true] at h
      obtain ⟨h1, h2, h3⟩ := h
      subst h3
      simp [h1, h2, hd, he]

/-- A call the pre-dispatch check lets through goes to the original `fetch`. -/
theorem wrapper_of_passes (env : Builtins) (originalFetch : FetchArgs → Except JsError Response)
    (args : FetchArgs) (w : World) (h : preDispatchStops env args = false) :
    enableFetchInterceptor env originalFetch args w = dispatchOriginal originalFetch args w := by
  unfold preDispatchStops at h
  unfold enableFetchInterceptor
  obtain ⟨v, hd⟩ := decodeToken_ok env (bearerToken args)
  obtain ⟨b, he⟩ := isTokenExpired_ok env (bearerToken args)
  simp only [hd, he] at h ⊢
  cases ha : strTruthy (authorizationHeader args) with
  | false => simp
  | true =>
    cases hv : v.truthy with
    | false => simp
    | true =>
      cases b with
      | false => simp
      | true => simp [ha, hv] at h

/-- The calls recorded by the tail of the wrapper start with the original
`fetch` on the arguments of the caller. -/
theorem newEffects_dispatchOriginal (originalFetch : FetchArgs → Except JsError Response)
    (args : FetchArgs) (w : World) :
    ∃ rest, newEffects w (dispatchOriginal originalFetch args w).2 = Effect.fetch args :: rest := by
  unfold dispatchOriginal newEffects
  cases originalFetch args with
  | error e => exact ⟨[], by simp⟩
  | ok response =>
    by_cases h : response.status = 401
    · exact ⟨[Effect.remediation], by simp [h, showTokenExpiredModal]⟩
    · exact ⟨[], by simp [h]⟩

/-- The calls recorded by one invocation of `showTokenExpiredModal`. -/
theorem newEffects_showTokenExpiredModal (w : World) :
    newEffects w (showTokenExpiredModal w) = [Effect.remediation] := by
  simp [newEffects, showTokenExpiredModal]

/-- C4 as stated fails: a call without an `Authorization` header, and a call
whose bearer token `abc` cannot be decoded, are both sent to the original `fetch`
and answered with its response, and the overlay is not shown. -/
theorem wrapper_dispatches_without_usable_token :
    authorizationHeader plainArgs = none ∧
    enableFetchInterceptor sampleBuiltins (statusFetch 200) plainArgs (sampleWorld []) =
      (.ok (some { status := 200, body := "[]" }),
        { sampleWorld [] with trace := [Effect.fetch plainArgs] }) ∧
    decodeToken sampleBuiltins (bearerToken (bearerArgs brokenToken)) = .ok .null ∧
    enableFetchInterceptor sampleBuiltins (statusFetch 200) (bearerArgs brokenToken)
        (sampleWorld []) =
      (.ok (some { status := 200, body := "[]" }),
        { sampleWorld [] with trace := [Effect.fetch (bearerArgs brokenToken)] }) := by
  refine ⟨by decide, by decide, by decide, by decide⟩

/-- C4, amended. The wrapper shows the overlay without calling the original
`fetch` exactly when the header is present, its token decodes to a truthy
payload and `isTokenExpired` reports it expired; in every other case, a missing
header and an undecodable token included, it hands the call to the original
`fetch`. -/
theorem wrapper_stops_iff_expired (env : Builtins)
    (originalFetch : FetchArgs → Except JsError Response) (args : FetchArgs) (w : World) :
    (preDispatchStops env args = true →
      enableFetchInterceptor env originalFetch args w = (.ok none, showTokenExpiredModal w) ∧
      newEffects w (enableFetchInterceptor env originalFetch args w).2 = [Effect.remediation]) ∧
    (preDispatchStops env args = false →
      enableFetchInterceptor env originalFetch args w = dispatchOriginal originalFetch args w ∧
      ∃ rest, newEffects w (enableFetchInterceptor env originalFetch args w).2 =
        Effect.fetch args :: rest) ∧
    (strTruthy (authorizationHeader args) = false → preDispatchStops env args = false) ∧
    (decodeToken env (bearerToken args) = .ok .null → preDispatchStops env args = false) := by
  refine ⟨?_, ?_, ?_, ?_⟩
  · intro h
    rw [wrapper_of_stops env originalFetch args w h]
    exact ⟨rfl, newEffects_showTokenExpiredModal w⟩
  · intro h
    rw [wrapper_of_passes env originalFetch args w h]
    exact ⟨rfl, newEffects_dispatchOriginal originalFetch args w⟩
  · intro h
    simp [preDispatchStops, h]
  · intro h
    simp [preDispatchStops, h, JsonValue.truthy]

/-- The amended C4 on examples: an expired bearer token is stopped with one
overlay and no call, a call without a header is sent. -/
theorem wrapper_stops_iff_expired_witness :
    (enableFetchInterceptor sampleBuiltins (statusFetch 200) (bearerArgs staleToken)
        (sampleWorld []) = (.ok none, showTokenExpiredModal (sampleWorld [])) ∧
      newEffects (sampleWorld [])
        (enableFetchInterceptor sampleBuiltins (statusFetch 200) (bearerArgs staleToken)
          (sampleWorld [])).2 = [Effect.remediation]) ∧
    (enableFetchInterceptor sampleBuiltins (statusFetch 200) plainArgs (sampleWorld []) =
        dispatchOriginal (statusFetch 200) plainArgs (sampleWorld []) ∧
      ∃ rest, newEffects (sampleWorld [])
        (enableFetchInterceptor sampleBuiltins (statusFetch 200) plainArgs (sampleWorld [])).2 =
          Effect.fetch plainArgs :: rest) :=
  ⟨(wrapper_stops_iff_expired sampleBuiltins (statusFetch 200) (bearerArgs staleToken)
      (sampleWorld [])).1 (by decide),
   (wrapper_stops_iff_expired sampleBuiltins (statusFetch 200) plainArgs
      (sampleWorld [])).2.1 (by decide)⟩

/-- C5. A wrapped call whose `Authorization` header carries a token that decodes
to a claims mapping and that `isTokenExpired` reports as expired resolves to
`undefined`, and the calls it makes are exactly one `showTokenExpiredModal` (so
the original `fetch` is not called). -/
theorem expired_bearer_is_stopped (env : Builtins)
    (originalFetch : FetchArgs → Except JsError Response) (args : FetchArgs) (w : World)
    (a : String) (c : Claims)
    (ha : authorizationHeader args = some a)
    (hd : decodeToken env (bearerToken args) = .ok (.claims c))
    (he : isTokenExpired env (bearerToken args) = .ok true) :
    (enableFetchInterceptor env originalFetch args w).1 = .ok none ∧
    (enableFetchInterceptor env originalFetch args w).2 = showTokenExpiredModal w ∧
    newEffects w (enableFetchInterceptor env originalFetch args w).2 = [Effect.remediation] := by
  have hne : a ≠ "" := by
    intro h0
    subst h0
    have hb : bearerToken args = some "" := by
      simp [bearerToken, ha]
      rfl
    rw [hb, decodeToken_empty] at hd
    cases hd
  have hstop : preDispatchStops env args = true := by
    simp [preDispatchStops, ha, strTruthy, hne, hd, he, JsonValue.truthy]
  rw [wrapper_of_stops env originalFetch args w hstop]
  exact ⟨rfl, rfl, newEffects_showTokenExpiredModal w⟩

/-- C5 on an example: a bearer token that expired one second ago, over a network
layer that would answer 200. -/
theorem expired_bearer_is_stopped_witness :
    authorizationHeader (bearerArgs staleToken) = some ("Bearer " ++ staleToken) ∧
    decodeToken sampleBuiltins (bearerToken (bearerArgs staleToken)) =
      .ok (.claims ⟨some 1699999999⟩) ∧
    isTokenExpired sampleBuiltins (bearerToken (bearerArgs staleToken)) = .ok true ∧
    (enableFetchInterceptor sampleBuiltins (statusFetch 200) (bearerArgs staleToken)
      (sampleWorld [])).1 = .ok none ∧
    (enableFetchInterceptor sampleBuiltins (statusFetch 200) (bearerArgs staleToken)
      (sampleWorld [])).2 = showTokenExpiredModal (sampleWorld []) ∧
    newEffects (sampleWorld [])
      (enableFetchInterceptor sampleBuiltins (statusFetch 200) (bearerArgs staleToken)
        (sampleWorld [])).2 = [Effect.remediation] :=
  ⟨by decide, by decide, by decide,
    expired_bearer_is_stopped sampleBuiltins (statusFetch 200) (bearerArgs staleToken)
      (sampleWorld []) ("Bearer " ++ staleToken) ⟨some 1699999999⟩
      (by decide) (by decide) (by decide)⟩

/-- C6. A wrapped call that the pre-dispatch check lets through calls the
original `fetch` exactly once, on the arguments of the caller, whatever that call
does. When it produces a response the wrapper resolves to that very response,
and the world afterwards is the world with that one call recorded, with
`showTokenExpiredModal` applied to it exactly when the status is 401. When it
fails the wrapper fails with the same error, after that one call and nothing
else: no second attempt and no overlay. -/
theorem passed_call_reaches_fetch_once (env : Builtins)
    (originalFetch : FetchArgs → Except JsError Response) (args : FetchArgs) (w : World)
    (hpass : preDispatchStops env args = false) :
    (∀ response, originalFetch args = .ok response →
      enableFetchInterceptor env originalFetch args w =
        (.ok (some response),
          if response.status = 401 then
            showTokenExpiredModal { w with trace := w.trace ++ [Effect.fetch args] }
          else { w with trace := w.trace ++ [Effect.fetch args] }) ∧
      newEffects w (enableFetchInterceptor env originalFetch args w).2 =
        Effect.fetch args :: (if response.status = 401 then [Effect.remediation] else [])) ∧
    (∀ e, originalFetch args = .error e →
      enableFetchInterceptor env originalFetch args w =
        (.error e, { w with trace := w.trace ++ [Effect.fetch args] }) ∧
      newEffects w (enableFetchInterceptor env originalFetch args w).2 =
        [Effect.fetch args]) := by
  rw [wrapper_of_passes env originalFetch args w hpass]
  unfold dispatchOriginal newEffects
  refine ⟨?_, ?_⟩
  · intro response hresp
    by_cases h : response.status = 401
    · simp [hresp, h, showTokenExpiredModal]
    · simp [hresp, h]
  · intro e he
    simp [he]

/-- C6 on examples: a live bearer token over a network layer that answers 401,
over one that answers 200, and over one that fails. -/
theorem passed_call_reaches_fetch_once_witness :
    (enableFetchInterceptor sampleBuiltins (statusFetch 401) (bearerArgs freshToken)
        (sampleWorld []) =
        (.ok (some { status := 401, body := "[]" }),
          showTokenExpiredModal
            { sampleWorld [] with
              trace := (sampleWorld []).trace ++ [Effect.fetch (bearerArgs freshToken)] }) ∧
      newEffects (sampleWorld [])
        (enableFetchInterceptor sampleBuiltins (statusFetch 401) (bearerArgs freshToken)
          (sampleWorld [])).2 = [Effect.fetch (bearerArgs freshToken), Effect.remediation]) ∧
    (enableFetchInterceptor sampleBuiltins (statusFetch 200) (bearerArgs freshToken)
        (sampleWorld []) =
        (.ok (some { status := 200, body := "[]" }),
          { sampleWorld [] with
            trace := (sampleWorld []).trace ++ [Effect.fetch (bearerArgs freshToken)] }) ∧
      newEffects (sampleWorld [])
        (enableFetchInterceptor sampleBuiltins (statusFetch 200) (bearerArgs freshToken)
          (sampleWorld [])).2 = [Effect.fetch (bearerArgs freshToken)]) ∧
    (enableFetchInterceptor sampleBuiltins failingFetch (bearerArgs freshToken)
        (sampleWorld []) =
        (.error .networkError,
          { sampleWorld [] with
            trace := (sampleWorld []).trace ++ [Effect.fetch (bearerArgs freshToken)] }) ∧
      newEffects (sampleWorld [])
        (enableFetchInterceptor sampleBuiltins failingFetch (bearerArgs freshToken)
          (sampleWorld [])).2 = [Effect.fetch (bearerArgs freshToken)]) :=
  ⟨(passed_call_reaches_fetch_once sampleBuiltins (statusFetch 401) (bearerArgs freshToken)
      (sampleWorld []) (by decide)).1 { status := 401, body := "[]" } rfl,
   (passed_call_reaches_fetch_once sampleBuiltins (statusFetch 200) (bearerArgs freshToken)
      (sampleWorld []) (by decide)).1 { status := 200, body := "[]" } rfl,
   (passed_call_reaches_fetch_once sampleBuiltins failingFetch (bearerArgs freshToken)
      (sampleWorld []) (by decide)).2 .networkError rfl⟩

/-! ## Modal manager -/

/-- Replacing an element leaves the runtime states alone. -/
theorem modalStates_setElement (p : Page) (m : String) (el : ModalElement) :
    (p.setElement m el).modalStates = p.modalStates := rfl

/-- Reading the runtime states after an assignment. -/
theorem modalStates_setState (p : Page) (m k : String) (s : ModalState) :
    (p.setState m s).modalStates k = if k = m then some s else p.modalStates k := rfl

/-- `minimizeModal` keeps the flags of every dialog exclusive. -/
theorem minimizeModal_exclusive (modalId m : String) (p p1 : Page)
    (h : HasExclusiveState modalId p) (hp : minimizeModal m p = .ok p1) :
    HasExclusiveState modalId p1 := by
  obtain ⟨s, hs, hex⟩ := h
  unfold minimizeModal at hp
  cases hel : p.elements m with
  | none => simp [hel] at hp
  | some modal =>
    simp only [hel] at hp
    injection hp with hp
    subst hp
    by_cases hm : modalId = m
    · subst hm
      by_cases hf : flagTruthy s.minimized = true
      · exact ⟨s, by simp [hs, hf, modalStates_setElement], hex⟩
      · refine ⟨_, by simp [hs, hf, modalStates_setElement, modalStates_setState]; rfl, ?_⟩
        simp [Exclusive]
    · refine ⟨s, ?_, hex⟩
      rw [modalStates_setElement]
      split
      · rw [modalStates_setState, if_neg hm, hs]
      · exact hs

/-- A flag that is not truthy is not `true`. -/
theorem ne_true_of_flagTruthy_false (f : Option Bool) (h : flagTruthy f = false) :
    f ≠ some true := by
  intro hf
  subst hf
  simp [flagTruthy] at h

/-- `maximizeModal` keeps the flags of every dialog exclusive. -/
theorem maximizeModal_exclusive (modalId m : String) (p p1 : Page)
    (h : HasExclusiveState modalId p) (hp : maximizeModal m p = .ok p1) :
    HasExclusiveState modalId p1 := by
  obtain ⟨s, hs, hex⟩ := h
  unfold maximizeModal at hp
  cases hel : p.elements m with
  | none => simp [hel] at hp
  | some modal =>
    simp only [hel] at hp
    by_cases hm : modalId = m
    · subst hm
      simp only [hs, Option.some_bind] at hp
      by_cases hmin : flagTruthy s.minimized = true
      · simp only [hmin, if_true] at hp
        injection hp with hp
        subst hp
        exact ⟨_, by rw [modalStates_setElement, modalStates_setState, if_pos rfl],
          by simp [Exclusive]⟩
      · by_cases hmax : flagTruthy s.maximized = true
        · simp only [hmin, hmax, if_true] at hp
          injection hp with hp
          subst hp
          exact ⟨_, by rw [modalStates_setElement, modalStates_setState, if_pos rfl],
            by simp [Exclusive]⟩
        · simp only [hmin, hmax] at hp
          injection hp with hp
          subst hp
          refine ⟨_, by rw [modalStates_setElement, modalStates_setState, if_pos rfl], ?_⟩
          have hne := ne_true_of_flagTruthy_false s.minimized (by simpa using hmin)
          simp [Exclusive, hne]
    · refine ⟨s, ?_, hex⟩
      split at hp
      · split at hp
        · cases hp
        · injection hp with hp
          subst hp
          rw [modalStates_setElement, modalStates_setState, if_neg hm, hs]
      · split at hp
        · split at hp
          · cases hp
          · injection hp with hp
            subst hp
            rw [modalStates_setElement, modalStates_setState, if_neg hm, hs]
        · injection hp with hp
          subst hp
          rw [modalStates_setElement, modalStates_setState, if_neg hm, hs]

/-- Every action keeps the flags of every dialog exclusive. -/
theorem step_exclusive (modalId : String) (p : Page) (a : Action)
    (h : HasExclusiveState modalId p) : HasExclusiveState modalId (step p a) := by
  cases a with
  | minimize m =>
    simp only [step]
    split
    · next p1 hp => exact minimizeModal_exclusive modalId m p p1 h hp
    · exact h
  | maximize m =>
    simp only [step]
    split
    · next p1 hp => exact maximizeModal_exclusive modalId m p p1 h hp
    · exact h
  | close m =>
    simp only [step, closeModal]
    split
    · exact h
    · exact h
  | mouseDown m x y l t =>
    simp only [step, headerMouseDown]
    split
    · exact h
    · split
      · exact h
      · exact h
  | mouseMove x y =>
    simp only [step, documentMouseMove]
    split
    · exact h
    · split
      · exact h
      · exact h
  | mouseUp => exact h

/-- Every finite sequence of actions keeps the flags of every dialog exclusive. -/
theorem run_exclusive (modalId : String) (actions : List Action) (p : Page)
    (h : HasExclusiveState modalId p) : HasExclusiveState modalId (run p actions) := by
  induction actions generalizing p with
  | nil => exact h
  | cons a rest ih => exact ih (step p a) (step_exclusive modalId p a h)

/-- The state recorded by `initModalControls` for an existing dialog has both
flags false. -/
theorem initModalControls_exclusive (modalId : String) (p : Page) (modal : ModalElement)
    (h : p.elements modalId = some modal) :
    HasExclusiveState modalId (initModalControls modalId p) := by
  unfold initModalControls
  simp only [h]
  exact ⟨_, by rw [modalStates_setState, if_pos rfl], by simp [Exclusive]⟩

/-- C7. Starting from the state recorded by `initModalControls` for an existing
dialog, after every finite sequence of minimize, maximize, close and drag
actions (on this or on any other dialog) the dialog still has a runtime state,
and that state never has `minimized` and `maximized` both true. -/
theorem minimized_maximized_exclusive (p : Page) (modalId : String) (modal : ModalElement)
    (actions : List Action) (h : p.elements modalId = some modal) :
    ∃ s, (run (initModalControls modalId p) actions).modalStates modalId = some s ∧
      ¬ (s.minimized = some true ∧ s.maximized = some true) :=
  run_exclusive modalId actions _ (initModalControls_exclusive modalId p modal h)

/-- Reading the elements after a replacement. -/
theorem elements_setElement (p : Page) (m k : String) (el : ModalElement) :
    (p.setElement m el).elements k = if k = m then some el else p.elements k := rfl

/-- An assignment to the runtime states leaves the elements alone. -/
theorem elements_setState (p : Page) (m : String) (s : ModalState) :
    (p.setState m s).elements = p.elements := rfl

/-- Falling back twice to the same value is falling back once. -/
theorem orString_orString (a b : String) : orString (orString a b) b = orString a b := by
  unfold orString
  by_cases ha : a = ""
  · by_cases hb : b = "" <;> simp [ha, hb]
  · simp [ha]

/-- `minimizeModal` on a dialog that is not minimized: the geometry is
snapshotted and both flags are written. -/
theorem minimizeModal_of_not_minimized (p : Page) (modalId : String) (modal : ModalElement)
    (h : p.elements modalId = some modal)
    (hmin : flagTruthy ((p.modalStates modalId).bind fun s => s.minimized) = false) :
    minimizeModal modalId p = .ok
      ((p.setState modalId
          { width := some (currentGeometry modal).width
            height := some (currentGeometry modal).height
            top := some (currentGeometry modal).top
            left := some (currentGeometry modal).left
            minimized := some true
            maximized := some false }).setElement modalId
        { modal with
          minimizedClass := true
          style :=
            { modal.style with
              width := "200px", height := "40px", top := "auto", left := "10px"
              transform := "none" }
          maximizeButton := modal.maximizeButton.map fun _ => "🗖" }) := by
  unfold minimizeModal
  simp only [h, hmin]
  rfl

/-- `maximizeModal` on a minimized dialog restores the snapshot. -/
theorem maximizeModal_of_minimized (p : Page) (modalId : String) (modal : ModalElement)
    (s : ModalState) (h : p.elements modalId = some modal)
    (hs : p.modalStates modalId = some s) (hmin : s.minimized = some true) :
    maximizeModal modalId p = .ok
      ((p.setState modalId { s with minimized := some false }).setElement modalId
        { modal with
          minimizedClass := false
          style :=
            { modal.style with
              width := assignStyle modal.style.width s.width
              height := assignStyle modal.style.height s.height
              top := assignStyle modal.style.top s.top
              left := assignStyle modal.style.left s.left
              transform := "none" }
          maximizeButton := modal.maximizeButton.map fun _ => "🗖" }) := by
  unfold maximizeModal
  simp only [h, hs, Option.some_bind, hmin, flagTruthy, if_true]

/-- C8. For every dialog that is not minimized and has geometry `g` (each
property read as the code reads it, inline style first, computed style
otherwise), `minimizeModal` succeeds and leaves the inline geometry at 200px by
40px, top auto, left 10px, with `minimized` true; the following `maximizeModal`
succeeds, sets the inline geometry to exactly `g`, so that the dialog has
geometry `g` again (and, when all four inline properties were set, the inline
geometry is what it was), and leaves `minimized` false. -/
theorem minimize_then_restore_roundtrip (p : Page) (modalId : String) (modal : ModalElement)
    (h : p.elements modalId = some modal)
    (hmin : flagTruthy ((p.modalStates modalId).bind fun s => s.minimized) = false) :
    ∃ p1 m1 s1 p2 m2 s2,
      minimizeModal modalId p = .ok p1 ∧
      p1.elements modalId = some m1 ∧
      styleGeometry m1 = { width := "200px", height := "40px", top := "auto", left := "10px" } ∧
      p1.modalStates modalId = some s1 ∧
      s1.minimized = some true ∧
      maximizeModal modalId p1 = .ok p2 ∧
      p2.elements modalId = some m2 ∧
      styleGeometry m2 = currentGeometry modal ∧
      currentGeometry m2 = currentGeometry modal ∧
      (modal.style.width ≠ "" → modal.style.height ≠ "" → modal.style.top ≠ "" →
        modal.style.left ≠ "" → styleGeometry m2 = styleGeometry modal) ∧
      p2.modalStates modalId = some s2 ∧
      s2.minimized = some false := by
  have h1 := minimizeModal_of_not_minimized p modalId modal h hmin
  have h2 := maximizeModal_of_minimized _ modalId _ _
    (by rw [elements_setElement, if_pos rfl] :
      ((p.setState modalId _).setElement modalId _).elements modalId = some _)
    (by rw [modalStates_setElement, modalStates_setState, if_pos rfl] :
      ((p.setState modalId
          { width := some (currentGeometry modal).width
            height := some (currentGeometry modal).height
            top := some (currentGeometry modal).top
            left := some (currentGeometry modal).left
            minimized := some true
            maximized := some false }).setElement modalId
        { modal with
          minimizedClass := true
          style :=
            { modal.style with
              width := "200px", height := "40px", top := "auto", left := "10px"
              transform := "none" }
          maximizeButton := modal.maximizeButton.map fun _ => "🗖" }).modalStates modalId
        = some _)
    rfl
  refine ⟨_, _, _, _, _, _, h1, by rw [elements_setElement, if_pos rfl], by rfl,
    by rw [modalStates_setElement, modalStates_setState, if_pos rfl], by rfl, h2,
    by rw [elements_setElement, if_pos rfl], by rfl, ?_, ?_,
    by rw [modalStates_setElement, modalStates_setState, if_pos rfl], by rfl⟩
  · simp [currentGeometry, assignStyle, orString_orString]
  · intro hw hh ht hl
    simp [styleGeometry, currentGeometry, assignStyle, orString, hw, hh, ht, hl]

/-- `maximizeModal` on a dialog that is neither minimized nor maximized: the
dialog fills the viewport and `maximized` is set; `minimized` stays falsy. -/
theorem maximizeModal_of_normal (p : Page) (modalId : String) (modal : ModalElement)
    (h : p.elements modalId = some modal)
    (hmin : flagTruthy ((p.modalStates modalId).bind fun s => s.minimized) = false)
    (hmax : flagTruthy ((p.modalStates modalId).bind fun s => s.maximized) = false) :
    ∃ s1,
      maximizeModal modalId p = .ok
        ((p.setState modalId s1).setElement modalId
          { modal with
            style :=
              { modal.style with
                width := "100%", height := "100%", top := "0", left := "0"
                transform := "none" }
            maximizeButton := modal.maximizeButton.map fun _ => "🗗" }) ∧
      s1.maximized = some true ∧ flagTruthy s1.minimized = false := by
  unfold maximizeModal
  simp only [h, hmin, hmax, Bool.false_eq_true, if_false]
  cases hs : p.modalStates modalId with
  | none => exact ⟨_, rfl, by rfl, by rfl⟩
  | some s =>
    rw [hs] at hmin
    exact ⟨_, rfl, by rfl, hmin⟩

/-- `maximizeModal` on a maximized dialog that is not minimized: the geometry
becomes the registered descriptor and `maximized` is cleared. -/
theorem maximizeModal_of_maximized (p : Page) (modalId : String) (modal : ModalElement)
    (s : ModalState) (config : Geometry) (h : p.elements modalId = some modal)
    (hc : modalConfigs modalId = some config)
    (hs : p.modalStates modalId = some s) (hmin : flagTruthy s.minimized = false)
    (hmax : s.maximized = some true) :
    maximizeModal modalId p = .ok
      ((p.setState modalId { s with maximized := some false }).setElement modalId
        { modal with
          style :=
            { modal.style with
              width := config.width, height := config.height, top := config.top
              left := config.left, transform := "none" }
          maximizeButton := modal.maximizeButton.map fun _ => "🗖" }) := by
  unfold maximizeModal
  simp only [h, hs, Option.some_bind, hmin, hmax, hc, Bool.false_eq_true, if_false]
  rfl

/-- C9. For every dialog identifier with a registered descriptor and every
dialog of that identifier that is neither minimized nor maximized, whatever its
geometry, `maximizeModal` succeeds and leaves the inline geometry at 100%, 100%,
0, 0 with `maximized` true; a second `maximizeModal` succeeds, sets width,
height, top and left to exactly the descriptor `modalConfigs[modalId]` and
leaves `maximized` false. -/
theorem maximize_then_restore_resets (p : Page) (modalId : String) (modal : ModalElement)
    (config : Geometry)
    (h : p.elements modalId = some modal)
    (hc : modalConfigs modalId = some config)
    (hmin : flagTruthy ((p.modalStates modalId).bind fun s => s.minimized) = false)
    (hmax : flagTruthy ((p.modalStates modalId).bind fun s => s.maximized) = false) :
    ∃ p1 m1 s1 p2 m2 s2,
      maximizeModal modalId p = .ok p1 ∧
      p1.elements modalId = some m1 ∧
      styleGeometry m1 = { width := "100%", height := "100%", top := "0", left := "0" } ∧
      p1.modalStates modalId = some s1 ∧
      s1.maximized = some true ∧
      maximizeModal modalId p1 = .ok p2 ∧
      p2.elements modalId = some m2 ∧
      styleGeometry m2 = config ∧
      p2.modalStates modalId = some s2 ∧
      s2.maximized = some false := by
  obtain ⟨s1, h1, hs1max, hs1min⟩ := maximizeModal_of_normal p modalId modal h hmin hmax
  have h2 := maximizeModal_of_maximized _ modalId _ s1 config
    (by rw [elements_setElement, if_pos rfl] :
      ((p.setState modalId s1).setElement modalId
        { modal with
          style :=
            { modal.style with
              width := "100%", height := "100%", top := "0", left := "0"
              transform := "none" }
          maximizeButton := modal.maximizeButton.map fun _ => "🗗" }).elements modalId = some _)
    hc (by rw [modalStates_setElement, modalStates_setState, if_pos rfl]) hs1min hs1max
  exact ⟨_, _, _, _, _, _, h1, by rw [elements_setElement, if_pos rfl], by rfl,
    by rw [modalStates_setElement, modalStates_setState, if_pos rfl], hs1max, h2,
    by rw [elements_setElement, if_pos rfl], by rfl,
    by rw [modalStates_setElement, modalStates_setState, if_pos rfl], by rfl⟩

/-- C7 on an example: the dialog `myModal` of the sample page, through a
sequence of actions that maximizes, minimizes, drags, restores and closes it. -/
theorem minimized_maximized_exclusive_witness :
    samplePage.elements "myModal" = some sampleElement ∧
    ∃ s, (run (initModalControls "myModal" samplePage) sampleActions).modalStates "myModal" =
        some s ∧
      ¬ (s.minimized = some true ∧ s.maximized = some true) :=
  ⟨by decide,
    minimized_maximized_exclusive samplePage "myModal" sampleElement sampleActions (by decide)⟩

/-- C8 on an example: the dialog `myModal` after a drag, with geometry 250px by
450px at top 70px, left 260px. -/
theorem minimize_then_restore_roundtrip_witness :
    draggedPage.elements "myModal" = some draggedElement ∧
    currentGeometry draggedElement =
      { width := "250px", height := "450px", top := "70px", left := "260px" } ∧
    ∃ p1 m1 s1 p2 m2 s2,
      minimizeModal "myModal" draggedPage = .ok p1 ∧
      p1.elements "myModal" = some m1 ∧
      styleGeometry m1 = { width := "200px", height := "40px", top := "auto", left := "10px" } ∧
      p1.modalStates "myModal" = some s1 ∧
      s1.minimized = some true ∧
      maximizeModal "myModal" p1 = .ok p2 ∧
      p2.elements "myModal" = some m2 ∧
      styleGeometry m2 = currentGeometry draggedElement ∧
      currentGeometry m2 = currentGeometry draggedElement ∧
      (draggedElement.style.width ≠ "" → draggedElement.style.height ≠ "" →
        draggedElement.style.top ≠ "" → draggedElement.style.left ≠ "" →
        styleGeometry m2 = styleGeometry draggedElement) ∧
      p2.modalStates "myModal" = some s2 ∧
      s2.minimized = some false :=
  ⟨by decide, by decide,
    minimize_then_restore_roundtrip draggedPage "myModal" draggedElement (by decide) (by decide)⟩

/-- C9 on an example: the dialog `myModal` after a drag, whose geometry differs
from its descriptor in top and left. -/
theorem maximize_then_restore_resets_witness :
    draggedPage.elements "myModal" = some draggedElement ∧
    modalConfigs "myModal" =
      some { width := "250px", height := "450px", top := "50px", left := "250px" } ∧
    styleGeometry draggedElement ≠
      { width := "250px", height := "450px", top := "50px", left := "250px" } ∧
    ∃ p1 m1 s1 p2 m2 s2,
      maximizeModal "myModal" draggedPage = .ok p1 ∧
      p1.elements "myModal" = some m1 ∧
      styleGeometry m1 = { width := "100%", height := "100%", top := "0", left := "0" } ∧
      p1.modalStates "myModal" = some s1 ∧
      s1.maximized = some true ∧
      maximizeModal "myModal" p1 = .ok p2 ∧
      p2.elements "myModal" = some m2 ∧
      styleGeometry m2 = { width := "250px", height := "450px", top := "50px", left := "250px" } ∧
      p2.modalStates "myModal" = some s2 ∧
      s2.maximized = some false :=
  ⟨by decide, by decide, by decide,
    maximize_then_restore_resets draggedPage "myModal" draggedElement
      { width := "250px", height := "450px", top := "50px", left := "250px" }
      (by decide) (by decide) (by decide) (by decide)⟩

/-! ## Lifetime and formatting -/

/-- C10, evaluated at an `exp` claim of 0. With the clock at 1700000000 seconds
`calculateTokenLifetime` returns `null` for the payload whose `exp` is 0, which
is not the number `max(0 - 1700000000, 0) = 0`; for the payload whose `exp` is 1,
expired as long ago but for one second, it returns that number 0. -/
theorem lifetime_is_null_for_zero_exp :
    currentTime sampleBuiltins = 1700000000 ∧
    calculateTokenLifetime sampleBuiltins (.claims ⟨some 0⟩) = .ok none ∧
    calculateTokenLifetime sampleBuiltins (.claims ⟨some 0⟩) ≠
      .ok (some (max (0 - currentTime sampleBuiltins) 0)) ∧
    calculateTokenLifetime sampleBuiltins (.claims ⟨some 1⟩) =
      .ok (some (max (1 - currentTime sampleBuiltins) 0)) := by
  refine ⟨by decide, by decide, by decide, by decide⟩

/-- Away from an `exp` claim of 0, and for safe integers (a clock reading, an
`exp` claim, their difference and a number of seconds `n` of absolute value at
most `maxSafeInteger`, where the arithmetic of the code is exact),
`calculateTokenLifetime` returns `max(exp - now, 0)`; `formatTime` renders `n`
as `n div 3600`, then `(n mod 3600) div 60`, then `n mod 60`, with the unit
letters; and when `exp` is `now + 3600` the remaining lifetime is rendered as
`1ч 0м 0с`. -/
theorem lifetime_and_format (env : Builtins) (c : Claims) (exp : Int) (n : Nat)
    (hc : c.exp = some exp) (h0 : exp ≠ 0)
    (_hnow : SafeInteger env.dateNow) (_hexp : SafeInteger exp)
    (_hdiff : SafeInteger (exp - currentTime env)) (_hn : SafeInteger n) :
    calculateTokenLifetime env (.claims c) = .ok (some (max (exp - currentTime env) 0)) ∧
    formatTime (n : Int) =
      toString (n / 3600) ++ "ч " ++ toString (n % 3600 / 60) ++ "м " ++ toString (n % 60)
        ++ "с" ∧
    (exp = currentTime env + 3600 →
      ∃ r, calculateTokenLifetime env (.claims c) = .ok (some r) ∧
        formatTime r = "1ч 0м 0с") := by
  have hlife : calculateTokenLifetime env (.claims c) =
      .ok (some (max (exp - currentTime env) 0)) := by
    unfold calculateTokenLifetime
    simp only [JsonValue.getExp, hc, h0, if_false]
    by_cases hr : exp - currentTime env ≤ 0
    · simp [hr]
    · have hr2 : 0 ≤ exp - currentTime env := by omega
      simp [hr, hr2]
  refine ⟨hlife, ?_, ?_⟩
  · have e1 : Int.fdiv (n : Int) 3600 = ((n / 3600 : Nat) : Int) := by
      rw [Int.fdiv_eq_ediv _ (by norm_num)]
      omega
    have e2 : Int.tmod (n : Int) 3600 = ((n % 3600 : Nat) : Int) := by
      rw [Int.tmod_eq_emod (by omega) (by norm_num)]
      omega
    have e3 : Int.fdiv ((n % 3600 : Nat) : Int) 60 = ((n % 3600 / 60 : Nat) : Int) := by
      rw [Int.fdiv_eq_ediv _ (by norm_num)]
      omega
    have e4 : Int.tmod (n : Int) 60 = ((n % 60 : Nat) : Int) := by
      rw [Int.tmod_eq_emod (by omega) (by norm_num)]
      omega
    simp only [formatTime, e1, e2, e3, e4]
    rfl
  · intro he
    refine ⟨3600, ?_, by decide⟩
    rw [hlife, he]
    simp

/-- The lifetime of a payload with `exp` 1700003600 at a clock of 1700000000
seconds is 3600 seconds, rendered as `1ч 0м 0с`, and 3725 seconds are rendered
as `1ч 2м 5с`. -/
theorem lifetime_and_format_witness :
    calculateTokenLifetime sampleBuiltins (.claims ⟨some 1700003600⟩) = .ok (some 3600) ∧
    formatTime 3725 = "1ч 2м 5с" ∧
    ∃ r, calculateTokenLifetime sampleBuiltins (.claims ⟨some 1700003600⟩) = .ok (some r) ∧
      formatTime r = "1ч 0м 0с" :=
  have h := lifetime_and_format sampleBuiltins ⟨some 1700003600⟩ 1700003600 3725 rfl
    (by decide) (by decide) (by decide) (by decide) (by decide)
  ⟨h.1, h.2.1, h.2.2 (by decide)⟩

/-! ## Remediation -/

/-- Filtering the storage by a test that keeps every entry of a key leaves the
value found for that key as it was. -/
theorem lookup_filter_keep (k : String) (p : String × String → Bool)
    (l : List (String × String)) (hp : ∀ v, p (k, v) = true) :
    List.lookup k (l.filter p) = List.lookup k l := by
  induction l with
  | nil => rfl
  | cons kv rest ih =>
    obtain ⟨a, b⟩ := kv
    by_cases hka : k = a
    · subst hka
      rw [List.filter_cons, if_pos (hp b)]
      simp only [List.lookup_cons, beq_self_eq_true]
    · have hb : (k == a) = false := by simpa using hka
      by_cases hpa : p (a, b) = true
      · rw [List.filter_cons, if_pos hpa]
        simp only [List.lookup_cons, hb, ih]
      · rw [List.filter_cons, if_neg hpa, ih]
        simp only [List.lookup_cons, hb]

/-- Filtering the storage by a test that rejects every entry of a key leaves no
value for that key. -/
theorem lookup_filter_drop (k : String) (p : String × String → Bool)
    (l : List (String × String)) (hp : ∀ v, p (k, v) = false) :
    List.lookup k (l.filter p) = none := by
  induction l with
  | nil => rfl
  | cons kv rest ih =>
    obtain ⟨a, b⟩ := kv
    by_cases hka : k = a
    · subst hka
      rw [List.filter_cons, if_neg (by simp [hp b]), ih]
    · have hb : (k == a) = false := by simpa using hka
      by_cases hpa : p (a, b) = true
      · rw [List.filter_cons, if_pos hpa]
        simp only [List.lookup_cons, hb, ih]
      · rw [List.filter_cons, if_neg hpa, ih]

/-- A removed key is absent. -/
theorem getItem_removeItem_self (key : String) (storage : List (String × String)) :
    getItem key (removeItem key storage) = none :=
  lookup_filter_drop key _ storage (by simp)

/-- Removing a key leaves every other key as it was. -/
theorem getItem_removeItem_of_ne (k key : String) (storage : List (String × String))
    (hk : k ≠ key) : getItem k (removeItem key storage) = getItem k storage :=
  lookup_filter_keep k _ storage (by simpa using hk)

/-- The four removals of the remediation, done twice, are the four removals done
once. -/
theorem removeItem_four_idem (storage : List (String × String)) :
    removeItem "redirectUrl" (removeItem "isAdmin" (removeItem "refreshToken"
      (removeItem "accessToken"
        (removeItem "redirectUrl" (removeItem "isAdmin" (removeItem "refreshToken"
          (removeItem "accessToken" storage))))))) =
    removeItem "redirectUrl" (removeItem "isAdmin" (removeItem "refreshToken"
      (removeItem "accessToken" storage))) := by
  unfold removeItem
  simp only [List.filter_filter]
  congr 1
  funext kv
  cases decide (kv.1 ≠ "redirectUrl") <;> cases decide (kv.1 ≠ "isAdmin") <;>
    cases decide (kv.1 ≠ "refreshToken") <;> cases decide (kv.1 ≠ "accessToken") <;> rfl

/-- C11. Remediation is idempotent on the client state: invoking
`showTokenExpiredModal` twice leaves the same client (body, local storage and
caches included) as invoking it once. After any invocation the body is exactly
the session-expired overlay, the local-storage keys `accessToken`,
`refreshToken`, `isAdmin` and `redirectUrl` are absent, every other
local-storage key has the value it had, and no named cache is left. -/
theorem showTokenExpiredModal_idempotent (w : World) :
    (showTokenExpiredModal (showTokenExpiredModal w)).client =
      (showTokenExpiredModal w).client ∧
    (showTokenExpiredModal w).client.bodyHTML = modalHTML ∧
    (∀ k, k ∈ ["accessToken", "refreshToken", "isAdmin", "redirectUrl"] →
      getItem k (showTokenExpiredModal w).client.localStorage = none) ∧
    (∀ k, k ∉ ["accessToken", "refreshToken", "isAdmin", "redirectUrl"] →
      getItem k (showTokenExpiredModal w).client.localStorage =
        getItem k w.client.localStorage) ∧
    (showTokenExpiredModal w).client.caches = w.client.caches.map fun _ => [] := by
  refine ⟨?_, rfl, ?_, ?_, rfl⟩
  · simp only [showTokenExpiredModal, removeItem_four_idem, Option.map_map]
    rfl
  · intro k hk
    simp only [List.mem_cons, List.mem_singleton, List.not_mem_nil, or_false] at hk
    simp only [showTokenExpiredModal]
    rcases hk with hk | hk | hk | hk <;> subst hk
    · rw [getItem_removeItem_of_ne _ _ _ (by decide), getItem_removeItem_of_ne _ _ _ (by decide),
        getItem_removeItem_of_ne _ _ _ (by decide), getItem_removeItem_self]
    · rw [getItem_removeItem_of_ne _ _ _ (by decide), getItem_removeItem_of_ne _ _ _ (by decide),
        getItem_removeItem_self]
    · rw [getItem_removeItem_of_ne _ _ _ (by decide), getItem_removeItem_self]
    · rw [getItem_removeItem_self]
  · intro k hk
    simp only [List.mem_cons, List.mem_singleton, List.not_mem_nil, or_false, not_or] at hk
    obtain ⟨h1, h2, h3, h4⟩ := hk
    simp only [showTokenExpiredModal]
    rw [getItem_removeItem_of_ne _ _ _ h4, getItem_removeItem_of_ne _ _ _ h3,
      getItem_removeItem_of_ne _ _ _ h2, getItem_removeItem_of_ne _ _ _ h1]

/-- C11 on an example: a client whose storage holds `accessToken` and `theme`
and whose cache storage holds one cache. -/
theorem showTokenExpiredModal_idempotent_witness :
    (showTokenExpiredModal (showTokenExpiredModal (sampleWorld []))).client =
      (showTokenExpiredModal (sampleWorld [])).client ∧
    (showTokenExpiredModal (sampleWorld [])).client.bodyHTML = modalHTML ∧
    getItem "accessToken" (showTokenExpiredModal (sampleWorld [])).client.localStorage = none ∧
    getItem "theme" (showTokenExpiredModal (sampleWorld [])).client.localStorage =
      some "dark" ∧
    (showTokenExpiredModal (sampleWorld [])).client.caches = some [] :=
  have h := showTokenExpiredModal_idempotent (sampleWorld [])
  ⟨h.1, h.2.1, h.2.2.1 "accessToken" (by decide), h.2.2.2.1 "theme" (by decide), h.2.2.2.2⟩

/-! ## Navigation helper -/

/-- Without a usable `access_token` parameter in the URL, `goBack` shows the
overlay and does not navigate, whatever local storage holds. -/
theorem goBack_of_missing (env : Builtins) (url : String) (w : World)
    (h : strTruthy (getTokenFromURL w.client) = false) :
    goBack env url w = (.ok (), showTokenExpiredModal w) := by
  simp [goBack, checkToken_of_missing env w h]

/-- With a URL token that decodes to an object and is not reported expired,
`goBack` navigates with that token. -/
theorem goBack_of_live (env : Builtins) (url : String) (w : World) (t : String) (c : Claims)
    (ht : getTokenFromURL w.client = some t) (hne : t ≠ "")
    (hd : decodeToken env (some t) = .ok (.claims c))
    (he : isTokenExpired env (some t) = .ok false) :
    goBack env url w =
      (.ok (), { w with client := { w.client with href := url ++ "?access_token=" ++ t } }) := by
  have hs : strTruthy (getTokenFromURL w.client) = true := by simp [ht, strTruthy, hne]
  have hc := checkToken_of_claims env w c false hs (by rw [ht]; exact hd) (by rw [ht]; exact he)
  simp [goBack, hc, ht, strTruthy, hne]

/-- C12, evaluated at a page without a URL token. The URL has no `access_token`
parameter, local storage holds a token that decodes and is not expired, and
`goBack("/studies")` does not navigate: `window.location.href` stays `/viewer`,
the overlay is shown and the stored token is removed. -/
theorem goBack_ignores_stored_token :
    getTokenFromURL storedTokenWorld.client = none ∧
    getItem "accessToken" storedTokenWorld.client.localStorage = some freshToken ∧
    decodeToken sampleBuiltins (some freshToken) = .ok (.claims ⟨some 1700003600⟩) ∧
    isTokenExpired sampleBuiltins (some freshToken) = .ok false ∧
    goBack sampleBuiltins "/studies" storedTokenWorld =
      (.ok (), showTokenExpiredModal storedTokenWorld) ∧
    (goBack sampleBuiltins "/studies" storedTokenWorld).2.client.href = "/viewer" ∧
    getItem "accessToken"
      (goBack sampleBuiltins "/studies" storedTokenWorld).2.client.localStorage = none := by
  refine ⟨by decide, by decide, by decide, by decide,
    goBack_of_missing sampleBuiltins "/studies" storedTokenWorld (by decide), by decide,
    by decide⟩

/-! ## The maximize toggle on a minimized dialog -/

/-- C13 as stated fails: on the minimized dialog `myModal`, whose snapshot is
250px by 450px at top 70px, left 260px, `maximizeModal` restores that snapshot
instead of the full-viewport geometry, and `maximized` stays false. -/
theorem minimized_dialog_is_restored_not_maximized :
    minimizedPage.elements "myModal" = some minimizedElement ∧
    minimizedPage.modalStates "myModal" = some minimizedState ∧
    ∃ p2 m2 s2,
      maximizeModal "myModal" minimizedPage = .ok p2 ∧
      p2.elements "myModal" = some m2 ∧
      p2.modalStates "myModal" = some s2 ∧
      styleGeometry m2 =
        { width := "250px", height := "450px", top := "70px", left := "260px" } ∧
      styleGeometry m2 ≠ { width := "100%", height := "100%", top := "0", left := "0" } ∧
      s2.maximized = some false ∧
      s2.minimized = some false :=
  ⟨by decide, by decide, _, _, _,
    maximizeModal_of_minimized minimizedPage "myModal" minimizedElement minimizedState
      (by decide) (by decide) rfl,
    by rw [elements_setElement, if_pos rfl],
    by rw [modalStates_setElement, modalStates_setState, if_pos rfl],
    by decide, by decide, by rfl, by rfl⟩

/-- C13, amended. The maximize toggle tests the `minimized` flag first: for
every dialog whose runtime state has `minimized` true, `maximizeModal` succeeds,
takes the restore branch (each inline geometry property is assigned the
snapshot member, so a complete snapshot `g` becomes the inline geometry; the
`minimized` class is removed), sets `minimized` to false and leaves `maximized`
and the snapshot as they were. -/
theorem maximize_on_minimized_restores (p : Page) (modalId : String) (modal : ModalElement)
    (s : ModalState)
    (h : p.elements modalId = some modal)
    (hs : p.modalStates modalId = some s)
    (hmin : s.minimized = some true) :
    ∃ p2 m2 s2,
      maximizeModal modalId p = .ok p2 ∧
      p2.elements modalId = some m2 ∧
      p2.modalStates modalId = some s2 ∧
      styleGeometry m2 =
        { width := assignStyle modal.style.width s.width
          height := assignStyle modal.style.height s.height
          top := assignStyle modal.style.top s.top
          left := assignStyle modal.style.left s.left } ∧
      (∀ g : Geometry, s.width = some g.width → s.height = some g.height →
        s.top = some g.top → s.left = some g.left → styleGeometry m2 = g) ∧
      m2.minimizedClass = false ∧
      s2 = { s with minimized := some false } ∧
      s2.minimized = some false ∧
      s2.maximized = s.maximized := by
  refine ⟨_, _, _, maximizeModal_of_minimized p modalId modal s h hs hmin,
    by rw [elements_setElement, if_pos rfl],
    by rw [modalStates_setElement, modalStates_setState, if_pos rfl],
    by rfl, ?_, by rfl, by rfl, by rfl, by rfl⟩
  intro g hw hh ht hl
  simp [styleGeometry, assignStyle, hw, hh, ht, hl]

/-- The amended C13 on an example: the minimized dialog `myModal` of the sample
page. -/
theorem maximize_on_minimized_restores_witness :
    minimizedPage.elements "myModal" = some minimizedElement ∧
    ∃ p2 m2 s2,
      maximizeModal "myModal" minimizedPage = .ok p2 ∧
      p2.elements "myModal" = some m2 ∧
      p2.modalStates "myModal" = some s2 ∧
      styleGeometry m2 =
        { width := assignStyle minimizedElement.style.width minimizedState.width
          height := assignStyle minimizedElement.style.height minimizedState.height
          top := assignStyle minimizedElement.style.top minimizedState.top
          left := assignStyle minimizedElement.style.left minimizedState.left } ∧
      (∀ g : Geometry, minimizedState.width = some g.width →
        minimizedState.height = some g.height → minimizedState.top = some g.top →
        minimizedState.left = some g.left → styleGeometry m2 = g) ∧
      m2.minimizedClass = false ∧
      s2 = { minimizedState with minimized := some false } ∧
      s2.minimized = some false ∧
      s2.maximized = minimizedState.maximized :=
  ⟨by decide,
    maximize_on_minimized_restores minimizedPage "myModal" minimizedElement minimizedState
      (by decide) (by decide) rfl⟩
end GeneralFun
